import Mathlib

/-!
Verification development for the SUNAT UBL invoice API (Go sources).

Shallow embedding conventions:
* Go `float64` monetary values are modelled as `ℚ`; the claims under study are
  about algebraic totals and explicit 0.01 tolerances, not about binary
  floating-point rounding.
* Go `string` is modelled as Lean `String` (byte-wise comparisons on the ASCII
  data occurring in this program coincide with `Char`-wise comparisons).
* Fallible Go functions returning `error` are modelled as `Except` with a
  structured error type mirroring each distinct error site of the source
  (the `fmt.Errorf` message text is carried as constructor payloads where a
  claim refers to its contents).
* The iteration order of the Go map `subtotales` in `crearTaxTotals`
  (converters/documento.go) is an implicit nondeterministic input of the
  program: Go randomizes `range` order over maps.  It is made explicit as an
  `orden` parameter ranging over the duplicate-free enumerations of the keys.
-/

unseal Rat.add Rat.sub Rat.mul Rat.inv Rat.ofScientific

namespace SunatUbl

/-! ## Data model (models package, part_002) -/

structure Emisor where
  ruc : String
  razonSocial : String
  nombreComercial : String
  ubigeo : String
  direccion : String
  departamento : String
  provincia : String
  distrito : String
  codigoPais : String
  correo : String
  deriving DecidableEq, Repr

structure Cliente where
  numeroDoc : String
  razonSocial : String
  tipoDoc : String
  ubigeo : String
  direccion : String
  departamento : String
  distrito : String
  provincia : String
  codigoPais : String
  correo : String
  deriving DecidableEq, Repr

structure ItemComprobante where
  id : String
  cantidad : ℚ
  unidadMedida : String
  descripcion : String
  valorUnitario : ℚ
  precioVentaUnitario : ℚ
  valorTotal : ℚ
  igv : ℚ
  codigoProducto : String
  codigoProductoSUNAT : String
  codigoTipoPrecio : String
  tipoAfectacionIGV : String
  codigoTributo : String
  unspsc : String
  deriving DecidableEq, Repr

structure Cuota where
  numeroCuota : String
  importe : ℚ
  fechaVencimiento : String
  deriving DecidableEq, Repr

structure Leyenda where
  codigo : String
  descripcion : String
  deriving DecidableEq, Repr

structure ComprobanteBase where
  serie : String
  numero : String
  fechaEmision : String
  horaEmision : String
  fechaVencimiento : String
  tipoDocumento : String
  moneda : String
  emisor : Emisor
  cliente : Cliente
  totalGravado : ℚ
  totalIGV : ℚ
  totalPrecioVenta : ℚ
  totalImportePagar : ℚ
  formaPago : String
  cuotas : List Cuota
  items : List ItemComprobante
  leyendas : List Leyenda
  tipoPercepcion : String
  deriving DecidableEq, Repr

/-! ## UBL output structures (converters/documento.go, converters/boleta_factura.go) -/

structure AmountWithCurrency where
  value : ℚ
  currencyID : String
  deriving DecidableEq, Repr

structure IDWithScheme where
  value : String
  schemeID : String
  schemeName : String
  schemeAgencyName : String
  schemeURI : String
  deriving DecidableEq, Repr

structure CDATAString where
  value : String
  deriving DecidableEq, Repr

structure PartyIdentification where
  id : IDWithScheme
  deriving DecidableEq, Repr

structure PartyName where
  name : CDATAString
  deriving DecidableEq, Repr

structure TaxSchemeSimple where
  id : IDWithScheme
  deriving DecidableEq, Repr

structure PartyTaxScheme where
  registrationName : CDATAString
  companyID : IDWithScheme
  taxScheme : TaxSchemeSimple
  deriving DecidableEq, Repr

structure AddressID where
  value : String
  schemeName : String
  schemeAgencyName : String
  deriving DecidableEq, Repr

structure AddressTypeCode where
  value : String
  listAgencyName : String
  listName : String
  deriving DecidableEq, Repr

structure AddressLine where
  line : CDATAString
  deriving DecidableEq, Repr

structure CountryCode where
  value : String
  listID : String
  listAgencyName : String
  listName : String
  deriving DecidableEq, Repr

structure Country where
  identificationCode : CountryCode
  deriving DecidableEq, Repr

structure RegistrationAddress where
  id : AddressID
  addressTypeCode : AddressTypeCode
  cityName : CDATAString
  countrySubentity : CDATAString
  district : CDATAString
  addressLine : AddressLine
  country : Country
  deriving DecidableEq, Repr

structure PartyLegalEntity where
  registrationName : CDATAString
  registrationAddress : Option RegistrationAddress
  deriving DecidableEq, Repr

structure Contact where
  name : CDATAString
  deriving DecidableEq, Repr

structure Party where
  partyIdentification : PartyIdentification
  partyName : PartyName
  partyTaxScheme : PartyTaxScheme
  partyLegalEntity : PartyLegalEntity
  contact : Option Contact
  deriving DecidableEq, Repr

structure AccountingSupplierParty where
  party : Party
  deriving DecidableEq, Repr

structure AccountingCustomerParty where
  party : Party
  deriving DecidableEq, Repr

structure ExternalReference where
  uri : String
  deriving DecidableEq, Repr

structure DigitalSignatureAttachment where
  externalReference : ExternalReference
  deriving DecidableEq, Repr

structure SignatoryParty where
  partyIdentification : PartyIdentification
  partyName : PartyName
  deriving DecidableEq, Repr

structure Signature where
  id : String
  signatoryParty : SignatoryParty
  digitalSignatureAttachment : DigitalSignatureAttachment
  deriving DecidableEq, Repr

structure TaxCategoryID where
  value : String
  schemeID : String
  schemeName : String
  schemeAgencyName : String
  deriving DecidableEq, Repr

structure TaxExemptionReasonCode where
  value : String
  listAgencyName : String
  listName : String
  listURI : String
  deriving DecidableEq, Repr

structure TaxSchemeID where
  value : String
  schemeID : String
  schemeAgencyID : String
  schemeAgencyName : String
  deriving DecidableEq, Repr

structure TaxScheme where
  id : TaxSchemeID
  name : String
  taxTypeCode : String
  deriving DecidableEq, Repr

structure TaxCategory where
  id : TaxCategoryID
  percent : ℚ
  taxExemptionReasonCode : TaxExemptionReasonCode
  taxScheme : TaxScheme
  deriving DecidableEq, Repr

structure TaxSubtotal where
  taxableAmount : AmountWithCurrency
  taxAmount : AmountWithCurrency
  taxCategory : TaxCategory
  deriving DecidableEq, Repr

structure TaxTotal where
  taxAmount : AmountWithCurrency
  taxSubtotal : List TaxSubtotal
  deriving DecidableEq, Repr

structure LegalMonetaryTotal where
  lineExtensionAmount : AmountWithCurrency
  taxInclusiveAmount : AmountWithCurrency
  payableAmount : AmountWithCurrency
  deriving DecidableEq, Repr

structure SUNATPerception where
  systemCode : String
  percent : ℚ
  totalInvoiceAmount : AmountWithCurrency
  perceptionAmount : AmountWithCurrency
  perceptionDate : String
  netTotalPaid : AmountWithCurrency
  deriving DecidableEq, Repr

structure ExtensionContent where
  sunatPerception : Option SUNATPerception
  deriving DecidableEq, Repr

structure UBLExtension where
  extensionContent : ExtensionContent
  deriving DecidableEq, Repr

structure PaymentTerms where
  id : String
  paymentMeansID : String
  amount : Option AmountWithCurrency
  paymentDueDate : String
  deriving DecidableEq, Repr

structure InvoicedQuantity where
  value : ℚ
  unitCode : String
  unitCodeListID : String
  unitCodeListAgencyName : String
  deriving DecidableEq, Repr

structure PriceTypeCode where
  value : String
  listName : String
  listAgencyName : String
  listURI : String
  deriving DecidableEq, Repr

structure AlternativeConditionPrice where
  priceAmount : AmountWithCurrency
  priceTypeCode : PriceTypeCode
  deriving DecidableEq, Repr

structure PricingReference where
  alternativeConditionPrice : AlternativeConditionPrice
  deriving DecidableEq, Repr

structure SellersItemIdentification where
  id : CDATAString
  deriving DecidableEq, Repr

structure ItemClassificationCode where
  value : String
  listID : String
  listAgencyName : String
  listName : String
  deriving DecidableEq, Repr

structure CommodityClassification where
  itemClassificationCode : ItemClassificationCode
  deriving DecidableEq, Repr

structure Item where
  description : CDATAString
  sellersItemIdentification : SellersItemIdentification
  commodityClassification : CommodityClassification
  deriving DecidableEq, Repr

structure Price where
  priceAmount : AmountWithCurrency
  deriving DecidableEq, Repr

structure InvoiceLine where
  id : String
  invoicedQuantity : InvoicedQuantity
  lineExtensionAmount : AmountWithCurrency
  pricingReference : PricingReference
  taxTotal : TaxTotal
  item : Item
  price : Price
  deriving DecidableEq, Repr

structure Note where
  value : String
  languageLocaleID : String
  deriving DecidableEq, Repr

structure CustomizationID where
  value : String
  schemeAgencyName : String
  deriving DecidableEq, Repr

structure ProfileID where
  value : String
  schemeName : String
  schemeAgencyName : String
  schemeURI : String
  deriving DecidableEq, Repr

structure InvoiceTypeCode where
  value : String
  listAgencyName : String
  listName : String
  listURI : String
  listID : String
  deriving DecidableEq, Repr

structure DocumentCurrencyCode where
  value : String
  listID : String
  listName : String
  listAgencyName : String
  deriving DecidableEq, Repr

/-- Root UBL document structure from `converters/boleta_factura.go`.  The
eleven constant namespace attribute strings are fixed by `ConvertirFacturaAUBL`
and are not repeated as fields here; every data-carrying field is kept. -/
structure Invoice where
  ublExtensions : List UBLExtension
  ublVersionID : String
  customizationID : CustomizationID
  profileID : ProfileID
  id : String
  issueDate : String
  issueTime : String
  dueDate : String
  invoiceTypeCode : InvoiceTypeCode
  notes : List Note
  documentCurrencyCode : DocumentCurrencyCode
  lineCountNumeric : Nat
  signature : Signature
  accountingSupplierParty : AccountingSupplierParty
  accountingCustomerParty : AccountingCustomerParty
  paymentTerms : List PaymentTerms
  taxTotal : List TaxTotal
  legalMonetaryTotal : LegalMonetaryTotal
  invoiceLines : List InvoiceLine
  deriving DecidableEq, Repr

/-! ## converters/documento.go : pure helper functions -/

/-- `newAmount` from converters/documento.go. -/
def newAmount (value : ℚ) (currency : String) : AmountWithCurrency :=
  { value := value, currencyID := currency }

/-- `obtenerCodigoCategoriaTributo` from converters/documento.go. -/
def obtenerCodigoCategoriaTributo (tipoAfectacionIGV : String) : String :=
  match tipoAfectacionIGV with
  | "10" | "11" | "12" | "13" | "14" | "15" | "16" | "17" => "S"
  | "20" => "E"
  | "21" => "Z"
  | "30" | "31" | "32" | "33" | "34" | "35" | "36" | "37" => "O"
  | "40" => "G"
  | _ => "S"

/-- `obtenerCodigoTributo` from converters/documento.go. -/
def obtenerCodigoTributo (tipoAfectacionIGV : String) : String :=
  match tipoAfectacionIGV with
  | "10" | "11" | "12" | "13" | "14" | "15" | "16" | "17" => "1000"
  | "20" => "9997"
  | "21" => "9996"
  | "30" | "31" | "32" | "33" | "34" | "35" | "36" | "37" => "9998"
  | "40" => "9995"
  | _ => "1000"

/-- `obtenerNombreTributo` from converters/documento.go. -/
def obtenerNombreTributo (tipoAfectacionIGV : String) : String :=
  match tipoAfectacionIGV with
  | "10" | "11" | "12" | "13" | "14" | "15" | "16" | "17" => "IGV"
  | "20" => "EXO"
  | "21" => "GRA"
  | "30" | "31" | "32" | "33" | "34" | "35" | "36" | "37" => "INA"
  | "40" => "EXP"
  | _ => "IGV"

/-- `obtenerTipoTributo` from converters/documento.go. -/
def obtenerTipoTributo (tipoAfectacionIGV : String) : String :=
  match tipoAfectacionIGV with
  | "10" | "11" | "12" | "13" | "14" | "15" | "16" | "17" => "VAT"
  | "20" => "VAT"
  | "21" => "FRE"
  | "30" | "31" | "32" | "33" | "34" | "35" | "36" | "37" => "INA"
  | "40" => "FRE"
  | _ => ""

/-- `newTaxCategory` from converters/documento.go.  Note: the `percent`
switch of the source lists only `"10" ... "16"`; code `"17"` falls into the
default `0.00` branch. -/
def newTaxCategory (item : ItemComprobante) : TaxCategory :=
  let percent : ℚ :=
    match item.tipoAfectacionIGV with
    | "10" | "11" | "12" | "13" | "14" | "15" | "16" => 18
    | _ => 0
  { id :=
      { value := obtenerCodigoCategoriaTributo item.tipoAfectacionIGV
        schemeID := "UN/ECE 5305"
        schemeName := "Tax Category Identifier"
        schemeAgencyName := "United Nations Economic Commission for Europe" }
    percent := percent
    taxExemptionReasonCode :=
      { value := item.tipoAfectacionIGV
        listAgencyName := "PE:SUNAT"
        listName := "Afectacion del IGV"
        listURI := "urn:pe:gob:sunat:cpe:see:gem:catalogos:catalogo07" }
    taxScheme :=
      { id :=
          { value := obtenerCodigoTributo item.tipoAfectacionIGV
            schemeID := "UN/ECE 5153"
            schemeAgencyID := ""
            schemeAgencyName := "PE:SUNAT" }
        name := obtenerNombreTributo item.tipoAfectacionIGV
        taxTypeCode := obtenerTipoTributo item.tipoAfectacionIGV } }

/-- Per-code tax percentage computed by the first loop of `crearTaxTotals`
(converters/documento.go, the `percent` switch): codes `"10"`–`"17"` map to
`18.00`, everything else to `0.00`.  The value is stored in the map field
`Porcentaje` of the bucket; the source never reads it back when emitting
the subtotals. -/
def porcentajeAfectacion (tipoAfectacionIGV : String) : ℚ :=
  if tipoAfectacionIGV ∈ ["10", "11", "12", "13", "14", "15", "16", "17"] then 18 else 0

/-- Aggregated taxable base of the `subtotales` map bucket for one
affectation code: the sum of `ValorTotal` over the items carrying that code
(`s.Base += item.ValorTotal` in `crearTaxTotals`). -/
def subtotalBase (items : List ItemComprobante) (tipo : String) : ℚ :=
  ((items.filter (fun it => it.tipoAfectacionIGV = tipo)).map (·.valorTotal)).sum

/-- Aggregated IGV of the `subtotales` map bucket for one affectation code
(`s.IGV += item.IGV` in `crearTaxTotals`). -/
def subtotalIGV (items : List ItemComprobante) (tipo : String) : ℚ :=
  ((items.filter (fun it => it.tipoAfectacionIGV = tipo)).map (·.igv)).sum

/-- The zero-valued `models.ItemComprobante{TipoAfectacionIGV: tipo}` literal
built inside the emission loop of `crearTaxTotals`. -/
def itemConAfectacion (tipo : String) : ItemComprobante :=
  { id := "", cantidad := 0, unidadMedida := "", descripcion := ""
    valorUnitario := 0, precioVentaUnitario := 0, valorTotal := 0, igv := 0
    codigoProducto := "", codigoProductoSUNAT := "", codigoTipoPrecio := ""
    tipoAfectacionIGV := tipo, codigoTributo := "", unspsc := "" }

/-- `orden` enumerates the keys of the Go map `subtotales` (the distinct
affectation codes occurring in the items) without repetition.  Go's `range`
over a map may yield the keys in any such order. -/
def esOrdenDeClaves (items : List ItemComprobante) (orden : List String) : Prop :=
  orden.Nodup ∧ (∀ c ∈ orden, c ∈ items.map (·.tipoAfectacionIGV)) ∧
    (∀ c ∈ items.map (·.tipoAfectacionIGV), c ∈ orden)

instance (items : List ItemComprobante) (orden : List String) :
    Decidable (esOrdenDeClaves items orden) := by
  unfold esOrdenDeClaves; infer_instance

/-- `crearTaxTotals` from converters/documento.go, with the map iteration
order made explicit as `orden`.  The emitted `TaxAmount` accumulates
`totalIGV += s.IGV` over all buckets. -/
def crearTaxTotals (f : ComprobanteBase) (orden : List String) : List TaxTotal :=
  let taxSubtotals := orden.map (fun tipo =>
    { taxableAmount := newAmount (subtotalBase f.items tipo) f.moneda
      taxAmount := newAmount (subtotalIGV f.items tipo) f.moneda
      taxCategory := newTaxCategory (itemConAfectacion tipo) : TaxSubtotal })
  let totalIGV := (orden.map (fun tipo => subtotalIGV f.items tipo)).sum
  [{ taxAmount := newAmount totalIGV f.moneda, taxSubtotal := taxSubtotals }]

/-- Per-item contribution to `lineExtensionAmount` in
`crearTotalesMonetarios`: the switch adds `ValorTotal` for codes
10–17, 20, 30–37 and 40 and adds nothing for code 21 (and for codes outside
the switch). -/
def contribucionLineExtension (it : ItemComprobante) : ℚ :=
  if it.tipoAfectacionIGV ∈ ["10", "11", "12", "13", "14", "15", "16", "17"] then it.valorTotal
  else if it.tipoAfectacionIGV = "20" then it.valorTotal
  else if it.tipoAfectacionIGV = "21" then 0
  else if it.tipoAfectacionIGV ∈ ["30", "31", "32", "33", "34", "35", "36", "37"] then
    it.valorTotal
  else if it.tipoAfectacionIGV = "40" then it.valorTotal
  else 0

/-- The `lineExtensionAmount` accumulation loop of `crearTotalesMonetarios`. -/
def lineExtensionSum (items : List ItemComprobante) : ℚ :=
  (items.map contribucionLineExtension).sum

/-- `crearTotalesMonetarios` from converters/documento.go. -/
def crearTotalesMonetarios (f : ComprobanteBase) : LegalMonetaryTotal :=
  { lineExtensionAmount := { value := lineExtensionSum f.items, currencyID := f.moneda }
    taxInclusiveAmount := { value := f.totalPrecioVenta, currencyID := f.moneda }
    payableAmount := { value := f.totalImportePagar, currencyID := f.moneda } }

/-- One invoice line of `crearLineas` (converters/documento.go), for the item
at 0-based position `i`.  For affectation code `"21"` the sale price is
forced to zero and the reference price carries `ValorUnitario`; otherwise
the price is `ValorUnitario` and the reference price `PrecioVentaUnitario`. -/
def mkInvoiceLine (item : ItemComprobante) (moneda : String) (i : Nat) : InvoiceLine :=
  let priceAmount : ℚ := if item.tipoAfectacionIGV = "21" then 0 else item.valorUnitario
  let price : ℚ :=
    if item.tipoAfectacionIGV = "21" then item.valorUnitario else item.precioVentaUnitario
  { id := toString (i + 1)
    invoicedQuantity :=
      { value := item.cantidad
        unitCode := item.unidadMedida
        unitCodeListID := "UN/ECE rec 20"
        unitCodeListAgencyName := "United Nations Economic Commission for Europe" }
    lineExtensionAmount := newAmount item.valorTotal moneda
    pricingReference :=
      { alternativeConditionPrice :=
          { priceAmount := newAmount price moneda
            priceTypeCode :=
              { value := item.codigoTipoPrecio
                listName := "Tipo de Precio"
                listAgencyName := "PE:SUNAT"
                listURI := "urn:pe:gob:sunat:cpe:see:gem:catalogos:catalogo16" } } }
    taxTotal :=
      { taxAmount := newAmount item.igv moneda
        taxSubtotal :=
          [{ taxableAmount := newAmount item.valorTotal moneda
             taxAmount := newAmount item.igv moneda
             taxCategory := newTaxCategory item }] }
    item :=
      { description := { value := item.descripcion }
        sellersItemIdentification := { id := { value := item.codigoProducto } }
        commodityClassification :=
          { itemClassificationCode :=
              { value := item.unspsc
                listID := "UNSPSC"
                listAgencyName := "GS1 US"
                listName := "Item Classification" } } }
    price := { priceAmount := newAmount priceAmount moneda } }

/-- The indexed loop of `crearLineas`. -/
def crearLineasDesde (items : List ItemComprobante) (moneda : String) (i : Nat) :
    List InvoiceLine :=
  match items with
  | [] => []
  | item :: rest => mkInvoiceLine item moneda i :: crearLineasDesde rest moneda (i + 1)

/-- `crearLineas` from converters/documento.go. -/
def crearLineas (items : List ItemComprobante) (moneda : String) : List InvoiceLine :=
  crearLineasDesde items moneda 0

/-- `math.Round` of Go on the rational model: round half away from zero to
an integer. -/
def mathRound (x : ℚ) : ℚ :=
  if 0 ≤ x then ((⌊x + 1/2⌋ : ℤ) : ℚ) else ((⌈x - 1/2⌉ : ℤ) : ℚ)

/-- `round` from converters/documento.go: `math.Round(val*100) / 100`. -/
def roundDoc (val : ℚ) : ℚ :=
  mathRound (val * 100) / 100

/-- `crearPercepcion` from converters/documento.go. -/
def crearPercepcion (f : ComprobanteBase) : Option UBLExtension :=
  if f.tipoDocumento ≠ "01" then none
  else if f.tipoPercepcion = "01" then some (mkPercepcion f 2)
  else if f.tipoPercepcion = "02" then some (mkPercepcion f 1)
  else if f.tipoPercepcion = "03" then some (mkPercepcion f (1/2))
  else none
where
  mkPercepcion (f : ComprobanteBase) (percent : ℚ) : UBLExtension :=
    let percepcionMonto := roundDoc (f.totalImportePagar * (percent / 100))
    let totalConPercepcion := roundDoc (f.totalImportePagar + percepcionMonto)
    { extensionContent :=
        { sunatPerception := some
            { systemCode := f.tipoPercepcion
              percent := percent
              totalInvoiceAmount := newAmount f.totalImportePagar f.moneda
              perceptionAmount := newAmount percepcionMonto f.moneda
              perceptionDate := f.fechaEmision
              netTotalPaid := newAmount totalConPercepcion f.moneda } } }

/-- `crearFirma` from converters/documento.go. -/
def crearFirma (f : ComprobanteBase) : Signature :=
  { id := f.serie ++ "-" ++ f.numero
    signatoryParty :=
      { partyIdentification :=
          { id := { value := f.emisor.ruc, schemeID := "", schemeName := ""
                    schemeAgencyName := "", schemeURI := "" } }
        partyName := { name := { value := f.emisor.razonSocial } } }
    digitalSignatureAttachment :=
      { externalReference := { uri := "#SignatureSP" } } }

/-- `crearEmisor` from converters/documento.go. -/
def crearEmisor (emisor : Emisor) : AccountingSupplierParty :=
  { party :=
      { partyIdentification :=
          { id := { value := emisor.ruc, schemeID := "6"
                    schemeName := "Documento de Identidad"
                    schemeAgencyName := "PE:SUNAT"
                    schemeURI := "urn:pe:gob:sunat:cpe:see:gem:catalogos:catalogo06" } }
        partyName := { name := { value := emisor.razonSocial } }
        partyTaxScheme :=
          { registrationName := { value := emisor.razonSocial }
            companyID :=
              { value := emisor.ruc, schemeID := "6"
                schemeName := "SUNAT:Identificador de Documento de Identidad"
                schemeAgencyName := "PE:SUNAT"
                schemeURI := "urn:pe:gob:sunat:cpe:see:gem:catalogos:catalogo06" }
            taxScheme :=
              { id :=
                  { value := emisor.ruc, schemeID := "6"
                    schemeName := "SUNAT:Identificador de Documento de Identidad"
                    schemeAgencyName := "PE:SUNAT"
                    schemeURI := "urn:pe:gob:sunat:cpe:see:gem:catalogos:catalogo06" } } }
        partyLegalEntity :=
          { registrationName := { value := emisor.razonSocial }
            registrationAddress := some
              { id := { value := emisor.ubigeo, schemeName := "Ubigeos"
                        schemeAgencyName := "PE:INEI" }
                addressTypeCode :=
                  { value := "0000", listAgencyName := "PE:SUNAT"
                    listName := "Establecimientos anexos" }
                cityName := { value := emisor.provincia }
                countrySubentity := { value := emisor.departamento }
                district := { value := emisor.distrito }
                addressLine := { line := { value := emisor.direccion } }
                country :=
                  { identificationCode :=
                      { value := emisor.codigoPais, listID := "ISO 3166-1"
                        listAgencyName := "United Nations Economic Commission for Europe"
                        listName := "Country" } } } }
        contact := some { name := { value := "" } } } }

/-- `crearCliente` from converters/documento.go. -/
def crearCliente (cliente : Cliente) : AccountingCustomerParty :=
  { party :=
      { partyIdentification :=
          { id := { value := cliente.numeroDoc, schemeID := cliente.tipoDoc
                    schemeName := "Documento de Identidad"
                    schemeAgencyName := "PE:SUNAT"
                    schemeURI := "urn:pe:gob:sunat:cpe:see:gem:catalogos:catalogo06" } }
        partyName := { name := { value := cliente.razonSocial } }
        partyTaxScheme :=
          { registrationName := { value := cliente.razonSocial }
            companyID :=
              { value := cliente.numeroDoc, schemeID := cliente.tipoDoc
                schemeName := "SUNAT:Identificador de Documento de Identidad"
                schemeAgencyName := "PE:SUNAT"
                schemeURI := "urn:pe:gob:sunat:cpe:see:gem:catalogos:catalogo06" }
            taxScheme :=
              { id :=
                  { value := cliente.numeroDoc, schemeID := cliente.tipoDoc
                    schemeName := "SUNAT:Identificador de Documento de Identidad"
                    schemeAgencyName := "PE:SUNAT"
                    schemeURI := "urn:pe:gob:sunat:cpe:see:gem:catalogos:catalogo06" } } }
        partyLegalEntity :=
          { registrationName := { value := cliente.razonSocial }
            registrationAddress := some
              { id := { value := cliente.ubigeo, schemeName := "Ubigeos"
                        schemeAgencyName := "PE:INEI" }
                addressTypeCode :=
                  { value := "0000", listAgencyName := "PE:SUNAT"
                    listName := "Establecimientos anexos" }
                cityName := { value := cliente.provincia }
                countrySubentity := { value := cliente.departamento }
                district := { value := cliente.distrito }
                addressLine := { line := { value := cliente.direccion } }
                country :=
                  { identificationCode :=
                      { value := cliente.codigoPais, listID := "ISO 3166-1"
                        listAgencyName := "United Nations Economic Commission for Europe"
                        listName := "Country" } } } }
        contact := none } }

/-- ASCII lower-casing of one character. -/
def minusculaAscii (c : Char) : Char :=
  if 'A' ≤ c ∧ c ≤ 'Z' then Char.ofNat (c.toNat + 32) else c

/-- `strings.EqualFold` restricted to the ASCII data this program compares
(`FormaPago` against `"Credito"`). -/
def goEqualFold (a b : String) : Bool :=
  a.data.map minusculaAscii = b.data.map minusculaAscii

/-- `crearPaymentTerms` from converters/documento.go. -/
def crearPaymentTerms (f : ComprobanteBase) : List PaymentTerms :=
  let cabeza : PaymentTerms :=
    { id := "FormaPago", paymentMeansID := f.formaPago
      amount := some (newAmount f.totalImportePagar f.moneda)
      paymentDueDate := "" }
  if goEqualFold f.formaPago "Credito" then
    cabeza :: f.cuotas.map (fun cuota =>
      { id := "FormaPago", paymentMeansID := cuota.numeroCuota
        paymentDueDate := cuota.fechaVencimiento
        amount := some (newAmount cuota.importe f.moneda) })
  else [cabeza]

/-- `crearInvoiceTypeCode` from converters/boleta_factura.go. -/
def crearInvoiceTypeCode (f : ComprobanteBase) : InvoiceTypeCode :=
  { value := f.tipoDocumento
    listAgencyName := "PE:SUNAT"
    listName := "Tipo de Documento"
    listURI := "urn:pe:gob:sunat:cpe:see:gem:catalogos:catalogo01"
    listID := "0101" }

/-- `crearCurrencyCode` from converters/boleta_factura.go. -/
def crearCurrencyCode (moneda : String) : DocumentCurrencyCode :=
  { value := moneda, listID := "ISO 4217 Alpha", listName := "Currency"
    listAgencyName := "United Nations Economic Commission for Europe" }

/-- `ConvertirFacturaAUBL` from converters/boleta_factura.go, with the map
iteration order of `crearTaxTotals` threaded through as `orden`.  The first
UBL extension is always the empty signature slot; a perception extension is
appended when `crearPercepcion` yields one. -/
def ConvertirFacturaAUBL (f : ComprobanteBase) (orden : List String) : Invoice :=
  let extensiones : List UBLExtension :=
    { extensionContent := { sunatPerception := none } } ::
      (crearPercepcion f).toList
  { ublExtensions := extensiones
    ublVersionID := "2.1"
    customizationID := { value := "2.0", schemeAgencyName := "PE:SUNAT" }
    profileID :=
      { value := "0101", schemeName := "Tipo de Operacion"
        schemeAgencyName := "PE:SUNAT"
        schemeURI := "urn:pe:gob:sunat:cpe:see:gem:catalogos:catalogo51" }
    id := f.serie ++ "-" ++ f.numero
    issueDate := f.fechaEmision
    issueTime := f.horaEmision
    dueDate := f.fechaVencimiento
    invoiceTypeCode := crearInvoiceTypeCode f
    notes := f.leyendas.map (fun leyenda =>
      { value := leyenda.descripcion, languageLocaleID := leyenda.codigo })
    documentCurrencyCode := crearCurrencyCode f.moneda
    lineCountNumeric := f.items.length
    signature := crearFirma f
    accountingSupplierParty := crearEmisor f.emisor
    accountingCustomerParty := crearCliente f.cliente
    paymentTerms := crearPaymentTerms f
    taxTotal := crearTaxTotals f orden
    legalMonetaryTotal := crearTotalesMonetarios f
    invoiceLines := crearLineas f.items f.moneda }

/-! ## Validator (validator package, part_005)

Each distinct error site of the validator is one constructor of `VError`;
constructor payloads carry the values interpolated into the corresponding
`fmt.Errorf` message (item errors carry `indice+1`, exactly the number the
message prints).  The `fmt.Errorf` stage prefixes that
`ValidarComprobanteBase` wraps around sub-errors only alter message text and
are not modelled. -/

inductive VError where
  | serieObligatoria
  | numeroObligatorio
  | fechaEmisionObligatoria
  | horaEmisionObligatoria
  | tipoDocumentoObligatorio
  | monedaObligatoria
  | formaPagoObligatoria
  | totalesEnCero
  | totalImportePagarObligatorio
  | datosEmisorIncompletos
  | datosClienteIncompletos
  | rucLongitudInvalida
  | rucNoNumerico
  | razonSocialObligatoria
  | direccionObligatoria
  | tipoDocClienteInvalido (tipoDoc : String)
  | dniLongitudInvalida
  | rucClienteLongitudInvalida
  | numeroDocNoNumerico
  | facturaRequiereRuc
  | boletaNoAdmiteRuc
  | tipoDocumentoInvalido (tipo : String)
  | serieFormatoInvalido (serie : String)
  | serieFacturaDebeEmpezarF
  | serieBoletaDebeEmpezarB
  | serieNotaCreditoInvalida
  | numeroLongitudInvalida
  | fechaEmisionInvalida
  | horaEmisionInvalida
  | fechaVencimientoInvalida
  | vencimientoAnteriorAEmision
  | monedaInvalida (moneda : String)
  | sinItems
  | itemSinDescripcion (numeroItem : Nat)
  | itemCantidadInvalida (numeroItem : Nat)
  | itemValorUnitarioNegativo (numeroItem : Nat)
  | itemAfectacionInvalida (numeroItem : Nat) (tipoAfectacion : String)
  | itemValorInconsistente (numeroItem : Nat) (esperado actual : ℚ)
  | totalGravadoInconsistente (esperado actual : ℚ)
  | totalIGVInconsistente (esperado actual : ℚ)
  | totalPrecioVentaInconsistente (esperado actual : ℚ)
  | importePagarDistintoDePrecioVenta
  deriving DecidableEq, Repr

instance {ε α : Type} [DecidableEq ε] [DecidableEq α] : DecidableEq (Except ε α) := fun a b =>
  match a, b with
  | .error x, .error y =>
    if h : x = y then .isTrue (by rw [h]) else .isFalse (by intro hc; cases hc; exact h rfl)
  | .ok x, .ok y =>
    if h : x = y then .isTrue (by rw [h]) else .isFalse (by intro hc; cases hc; exact h rfl)
  | .error _, .ok _ => .isFalse (by intro hc; cases hc)
  | .ok _, .error _ => .isFalse (by intro hc; cases hc)

/-- `abs` from part_005 (the validator's own absolute value on float64). -/
def absV (x : ℚ) : ℚ :=
  if x < 0 then -x else x

/-- Numeric value of a list of ASCII digit characters (most significant
first). -/
def natDeDigitos (l : List Char) : Nat :=
  l.foldl (fun n c => 10 * n + (c.toNat - 48)) 0

/-- Success predicate of `strconv.Atoi`: an optional sign followed by at
least one ASCII digit, with the resulting value inside the int64 range. -/
def atoiExitoso (s : String) : Bool :=
  match s.data with
  | [] => false
  | '+' :: rest =>
    !rest.isEmpty && rest.all Char.isDigit &&
      decide (natDeDigitos rest ≤ 9223372036854775807)
  | '-' :: rest =>
    !rest.isEmpty && rest.all Char.isDigit &&
      decide (natDeDigitos rest ≤ 9223372036854775808)
  | l => l.all Char.isDigit && decide (natDeDigitos l ≤ 9223372036854775807)

/-- Byte length of a string (`len` of Go on a UTF-8 string). -/
def goLen (s : String) : Nat :=
  s.utf8ByteSize

/-- Leap-year rule used by Go's `time` package (proleptic Gregorian). -/
def esBisiesto (y : Nat) : Bool :=
  y % 4 = 0 && (y % 100 ≠ 0 || y % 400 = 0)

/-- Number of days of month `m` in year `y`. -/
def diasEnMes (y m : Nat) : Nat :=
  match m with
  | 1 => 31 | 2 => if esBisiesto y then 29 else 28 | 3 => 31 | 4 => 30
  | 5 => 31 | 6 => 30 | 7 => 31 | 8 => 31 | 9 => 30 | 10 => 31
  | 11 => 30 | 12 => 31 | _ => 0

/-- `time.Parse("2006-01-02", s)`: exactly `dddd-dd-dd` with a valid
Gregorian calendar date. -/
def parseFecha (s : String) : Option (Nat × Nat × Nat) :=
  match s.data with
  | [y1, y2, y3, y4, '-', m1, m2, '-', d1, d2] =>
    if (y1.isDigit && y2.isDigit && y3.isDigit && y4.isDigit &&
        m1.isDigit && m2.isDigit && d1.isDigit && d2.isDigit) then
      let y := natDeDigitos [y1, y2, y3, y4]
      let m := natDeDigitos [m1, m2]
      let d := natDeDigitos [d1, d2]
      if 1 ≤ m && m ≤ 12 && 1 ≤ d && d ≤ diasEnMes y m then some (y, m, d)
      else none
    else none
  | _ => none

/-- `time.Time.Before` on parsed dates: strict lexicographic order on
(year, month, day). -/
def fechaAntes (a b : Nat × Nat × Nat) : Bool :=
  a.1 < b.1 || (a.1 = b.1 && (a.2.1 < b.2.1 || (a.2.1 = b.2.1 && a.2.2 < b.2.2)))

/-- The regex `^[A-Z][A-Z0-9]{3}$` of `validarCamposBasicos`. -/
def serieValida (s : String) : Bool :=
  match s.data with
  | [c0, c1, c2, c3] =>
    c0.isUpper && (c1.isUpper || c1.isDigit) && (c2.isUpper || c2.isDigit) &&
      (c3.isUpper || c3.isDigit)
  | _ => false

/-- The regex `^\d{2}:\d{2}:\d{2}$` of `validarCamposBasicos`. -/
def horaValida (s : String) : Bool :=
  match s.data with
  | [h1, h2, ':', m1, m2, ':', s1, s2] =>
    h1.isDigit && h2.isDigit && m1.isDigit && m2.isDigit && s1.isDigit && s2.isDigit
  | _ => false

/-- First byte of a Go string (`f.Serie[0]`); the series has already passed
`serieValida`, so its first byte is an ASCII character. -/
def primerCaracter (s : String) : Option Char :=
  s.data.head?

/-- `verificarCamposObligatorios` from part_005. -/
def verificarCamposObligatorios (f : ComprobanteBase) : Except VError Unit :=
  let esGratuito := f.items.any (fun it => it.tipoAfectacionIGV = "21")
  if f.serie = "" then .error .serieObligatoria
  else if f.numero = "" then .error .numeroObligatorio
  else if f.fechaEmision = "" then .error .fechaEmisionObligatoria
  else if f.horaEmision = "" then .error .horaEmisionObligatoria
  else if f.tipoDocumento = "" then .error .tipoDocumentoObligatorio
  else if f.moneda = "" then .error .monedaObligatoria
  else if f.formaPago = "" then .error .formaPagoObligatoria
  else if !esGratuito && f.totalGravado = 0 && f.totalIGV = 0 && f.totalPrecioVenta = 0 then
    .error .totalesEnCero
  else if f.totalImportePagar = 0 && !esGratuito then .error .totalImportePagarObligatorio
  else if f.emisor.ruc = "" || f.emisor.razonSocial = "" || f.emisor.direccion = "" then
    .error .datosEmisorIncompletos
  else if f.cliente.numeroDoc = "" || f.cliente.tipoDoc = "" || f.cliente.razonSocial = "" then
    .error .datosClienteIncompletos
  else .ok ()

/-- `validarEmisor` from part_005. -/
def validarEmisor (emisor : Emisor) : Except VError Unit :=
  if goLen emisor.ruc ≠ 11 then .error .rucLongitudInvalida
  else if !atoiExitoso emisor.ruc then .error .rucNoNumerico
  else if emisor.razonSocial = "" then .error .razonSocialObligatoria
  else if emisor.direccion = "" then .error .direccionObligatoria
  else .ok ()

/-- `validarCliente` from part_005. -/
def validarCliente (cliente : Cliente) (tipoComprobante : String) : Except VError Unit :=
  if cliente.tipoDoc ∉ ["1", "6", "4", "7"] then
    .error (.tipoDocClienteInvalido cliente.tipoDoc)
  else if cliente.tipoDoc = "1" ∧ goLen cliente.numeroDoc ≠ 8 then
    .error .dniLongitudInvalida
  else if cliente.tipoDoc = "6" ∧ goLen cliente.numeroDoc ≠ 11 then
    .error .rucClienteLongitudInvalida
  else if (cliente.tipoDoc = "1" ∨ cliente.tipoDoc = "6") ∧ !atoiExitoso cliente.numeroDoc then
    .error .numeroDocNoNumerico
  else if tipoComprobante = "01" ∧ cliente.tipoDoc ≠ "6" then .error .facturaRequiereRuc
  else if tipoComprobante = "03" ∧ cliente.tipoDoc = "6" then .error .boletaNoAdmiteRuc
  else .ok ()

/-- `validarCamposBasicos` from part_005. -/
def validarCamposBasicos (f : ComprobanteBase) : Except VError Unit :=
  if f.tipoDocumento ∉ ["01", "03", "07"] then .error (.tipoDocumentoInvalido f.tipoDocumento)
  else if !serieValida f.serie then .error (.serieFormatoInvalido f.serie)
  else if f.tipoDocumento = "01" ∧ primerCaracter f.serie ≠ some 'F' then
    .error .serieFacturaDebeEmpezarF
  else if f.tipoDocumento = "03" ∧ primerCaracter f.serie ≠ some 'B' then
    .error .serieBoletaDebeEmpezarB
  else if f.tipoDocumento = "07" ∧ primerCaracter f.serie ≠ some 'F' ∧
      primerCaracter f.serie ≠ some 'B' then
    .error .serieNotaCreditoInvalida
  else if goLen f.numero = 0 ∨ goLen f.numero > 8 then .error .numeroLongitudInvalida
  else if (parseFecha f.fechaEmision).isNone then .error .fechaEmisionInvalida
  else if f.horaEmision ≠ "" ∧ !horaValida f.horaEmision then .error .horaEmisionInvalida
  else if f.fechaVencimiento ≠ "" then
    match parseFecha f.fechaVencimiento, parseFecha f.fechaEmision with
    | some venc, some emision =>
      if fechaAntes venc emision then .error .vencimientoAnteriorAEmision
      else if f.moneda ∉ ["PEN", "USD", "EUR"] then .error (.monedaInvalida f.moneda)
      else .ok ()
    | _, _ => .error .fechaVencimientoInvalida
  else if f.moneda ∉ ["PEN", "USD", "EUR"] then .error (.monedaInvalida f.moneda)
  else .ok ()

/-- The affectation-code catalog of `validarItem` (the `tiposAfectacion`
map literal of part_005). -/
def tiposAfectacionValidos : List String :=
  ["10", "11", "12", "13", "14", "15", "16", "17", "20", "21", "30", "31",
   "32", "33", "34", "35", "36", "37", "40"]

/-- `validarItem` from part_005.  `indice` is the 0-based loop index; error
payloads carry `indice+1`, the number printed by the message. -/
def validarItem (item : ItemComprobante) (indice : Nat) : Except VError Unit :=
  if item.descripcion = "" then .error (.itemSinDescripcion (indice + 1))
  else if item.cantidad ≤ 0 then .error (.itemCantidadInvalida (indice + 1))
  else if item.valorUnitario < 0 then .error (.itemValorUnitarioNegativo (indice + 1))
  else if item.tipoAfectacionIGV ∉ tiposAfectacionValidos then
    .error (.itemAfectacionInvalida (indice + 1) item.tipoAfectacionIGV)
  else if item.tipoAfectacionIGV ≠ "21" ∧
      absV (item.valorTotal - item.valorUnitario * item.cantidad) > 1/100 then
    .error (.itemValorInconsistente (indice + 1)
      (item.valorUnitario * item.cantidad) item.valorTotal)
  else .ok ()

/-- Per-item contribution to `sumaGravado` in `validarTotales` (code 21 is
skipped by `continue`). -/
def contribucionGravado (it : ItemComprobante) : ℚ :=
  if it.tipoAfectacionIGV = "21" then 0
  else if it.tipoAfectacionIGV ∈ ["10", "11", "12", "13", "14", "15", "16", "17"] then
    it.valorTotal
  else 0

/-- Per-item contribution to `sumaExonerado` in `validarTotales` (codes 20
and 40). -/
def contribucionExonerado (it : ItemComprobante) : ℚ :=
  if it.tipoAfectacionIGV = "21" then 0
  else if it.tipoAfectacionIGV ∈ ["20", "40"] then it.valorTotal
  else 0

/-- Per-item contribution to `sumaInafecto` in `validarTotales` (codes
30–37). -/
def contribucionInafecto (it : ItemComprobante) : ℚ :=
  if it.tipoAfectacionIGV = "21" then 0
  else if it.tipoAfectacionIGV ∈ ["30", "31", "32", "33", "34", "35", "36", "37"] then
    it.valorTotal
  else 0

/-- Per-item contribution to `sumaIGV` in `validarTotales`: the `continue`
for code 21 skips the `sumaIGV += item.IGV` line, every other item (with a
known code or not) contributes its IGV. -/
def contribucionIGV (it : ItemComprobante) : ℚ :=
  if it.tipoAfectacionIGV = "21" then 0 else it.igv

/-- The `sumaGravado` accumulator of `validarTotales`. -/
def sumaGravadoDe (items : List ItemComprobante) : ℚ :=
  (items.map contribucionGravado).sum

/-- The `sumaExonerado` accumulator of `validarTotales`. -/
def sumaExoneradoDe (items : List ItemComprobante) : ℚ :=
  (items.map contribucionExonerado).sum

/-- The `sumaInafecto` accumulator of `validarTotales`. -/
def sumaInafectoDe (items : List ItemComprobante) : ℚ :=
  (items.map contribucionInafecto).sum

/-- The `sumaIGV` accumulator of `validarTotales`. -/
def sumaIGVDe (items : List ItemComprobante) : ℚ :=
  (items.map contribucionIGV).sum

/-- The `totalEsperado` of `validarTotales`:
`sumaGravado + sumaExonerado + sumaInafecto + sumaIGV`. -/
def totalEsperadoDe (items : List ItemComprobante) : ℚ :=
  sumaGravadoDe items + sumaExoneradoDe items + sumaInafectoDe items + sumaIGVDe items

/-- `validarTotales` from part_005. -/
def validarTotales (f : ComprobanteBase) : Except VError Unit :=
  if absV (f.totalGravado - sumaGravadoDe f.items) > 1/100 then
    .error (.totalGravadoInconsistente (sumaGravadoDe f.items) f.totalGravado)
  else if absV (f.totalIGV - sumaIGVDe f.items) > 1/100 then
    .error (.totalIGVInconsistente (sumaIGVDe f.items) f.totalIGV)
  else if absV (f.totalPrecioVenta - totalEsperadoDe f.items) > 1/100 then
    .error (.totalPrecioVentaInconsistente (totalEsperadoDe f.items) f.totalPrecioVenta)
  else if absV (f.totalImportePagar - f.totalPrecioVenta) > 1/100 then
    .error .importePagarDistintoDePrecioVenta
  else .ok ()

/-- The indexed `for i, item := range f.Items` validation loop of
`ValidarComprobanteBase`, returning the first failing item's error. -/
def validarItemsDesde : List ItemComprobante → Nat → Except VError Unit
  | [], _ => .ok ()
  | item :: rest, i =>
    match validarItem item i with
    | .error e => .error e
    | .ok _ => validarItemsDesde rest (i + 1)

/-- `ValidarComprobanteBase` from part_005. -/
def ValidarComprobanteBase (f : ComprobanteBase) : Except VError Unit :=
  match verificarCamposObligatorios f with
  | .error e => .error e
  | .ok _ =>
  match validarEmisor f.emisor with
  | .error e => .error e
  | .ok _ =>
  match validarCliente f.cliente f.tipoDocumento with
  | .error e => .error e
  | .ok _ =>
  match validarCamposBasicos f with
  | .error e => .error e
  | .ok _ =>
  if f.items.isEmpty then .error .sinItems
  else
    match validarItemsDesde f.items 0 with
    | .error e => .error e
    | .ok _ => validarTotales f

/-- Core request pipeline of `manerjarDocumento` (main.go): validate, then
(for the implemented document types 01 and 03) build the UBL structure.
Database writes, file I/O, signing and transmission happen after (or on)
this structure and are out of scope here.  `orden` is the map iteration
order of `crearTaxTotals`. -/
def procesarDocumento (f : ComprobanteBase) (orden : List String) :
    Except VError Invoice :=
  match ValidarComprobanteBase f with
  | .error e => .error e
  | .ok _ =>
    if f.tipoDocumento = "01" ∨ f.tipoDocumento = "03" then
      .ok (ConvertirFacturaAUBL f orden)
    else .error (.tipoDocumentoInvalido f.tipoDocumento)

/-! ## Receipt interpretation (utils/sunat.go, `SendToSunatStructured`) -/

/-- Byte-wise lexicographic `<` of Go strings, on the character lists (the
strings compared by this program are ASCII, where byte order and
code-point order coincide). -/
def goStringLt : List Char → List Char → Bool
  | [], [] => false
  | [], _ :: _ => true
  | _ :: _, [] => false
  | a :: as, b :: bs =>
    if a.toNat < b.toNat then true
    else if b.toNat < a.toNat then false
    else goStringLt as bs

/-- Status derivation of `SendToSunatStructured` (utils/sunat.go lines
188–193): `estado` starts as `"rechazada"`, becomes `"aprobada"` when the
CDR response code equals `"0"`, and `"observada"` when
`cdr.ResponseCode >= "4000" && cdr.ResponseCode < "5000"` — a raw string
comparison. -/
def estadoDeCodigo (code : String) : String :=
  if code = "0" then "aprobada"
  else if !goStringLt code.data "4000".data && goStringLt code.data "5000".data then
    "observada"
  else "rechazada"

/-- Modelled from the spec: status derivation by the numeric value of the
response code ("code equal to \"0\" → approved; code numerically in
[4000, 5000) → observed; any other code → rejected"), for comparison with
the string-comparison implementation `estadoDeCodigo`. -/
def estadoSegunEspecificacion (code : String) : String :=
  if code = "0" then "aprobada"
  else if code.data ≠ [] ∧ code.data.all Char.isDigit ∧
      4000 ≤ natDeDigitos code.data ∧ natDeDigitos code.data < 5000 then
    "observada"
  else "rechazada"

/-! ## XML normalization (converters/boleta_factura.go, `limpiarXML`)

`limpiarXML` applies two `regexp.ReplaceAllString(_, "")` passes:
first `\s+\w+(?::\w+)?=""` (whitespace-preceded empty-valued attributes),
then `<\w+(:\w+)?[^>]*/>` (self-closing elements).  Both are embedded as
deterministic left-to-right scanners equivalent to RE2's leftmost-first
matching for these patterns: in the first pattern the quantified classes
`\s`, `\w` and the literals are pairwise disjoint at every boundary, so
greedy runs are forced; in the second, `[^>]*` cannot cross a `>` and `/>`
contains one, so a match from a given `<` ends exactly at the first
following `>`, which must be preceded by `/`. -/

/-- RE2's `\s` character class: `[\t\n\f\r ]`. -/
def esEspacioRegex (c : Char) : Bool :=
  c = ' ' || c = '\t' || c = '\n' || c = '\r' || c = '\x0c'

/-- RE2's `\w` character class: `[0-9A-Za-z_]`. -/
def esPalabraRegex (c : Char) : Bool :=
  c.isAlphanum || c = '_'

/-- Length of the maximal prefix satisfying `p`. -/
def longMientras (p : Char → Bool) : List Char → Nat
  | [] => 0
  | c :: cs => if p c then longMientras p cs + 1 else 0

/-- Length of the leftmost-first match of `\s+\w+(?::\w+)?=""` anchored at
the start of `l`, when one exists. -/
def matchAtributoVacio (l : List Char) : Option Nat :=
  let w := longMientras esEspacioRegex l
  if w = 0 then none
  else
    let l1 := l.drop w
    let a := longMientras esPalabraRegex l1
    if a = 0 then none
    else
      match l1.drop a with
      | ':' :: l3 =>
        let b := longMientras esPalabraRegex l3
        if b = 0 then none
        else if (l3.drop b).take 3 = ['=', '"', '"'] then some (w + a + 1 + b + 3)
        else none
      | l2 => if l2.take 3 = ['=', '"', '"'] then some (w + a + 3) else none

/-- Scan `[^>]*` for a terminating `/>`; returns the number of characters
consumed including the `/>`, or `none` upon a bare `>` or the end of
input. -/
def buscarCierre : List Char → Option Nat
  | [] => none
  | c :: cs =>
    if c = '>' then none
    else if c = '/' ∧ cs.head? = some '>' then some 2
    else (buscarCierre cs).map (· + 1)

/-- Length of the match of `<\w+(:\w+)?[^>]*/>` anchored at the start of
`l`, when one exists (`:` and `\w` characters are themselves in `[^>]`, so
the scan subsumes the optional group). -/
def matchAutocerrado : List Char → Option Nat
  | a :: c :: rest =>
    if a = '<' ∧ esPalabraRegex c then (buscarCierre rest).map (· + 2) else none
  | _ => none

/-- `ReplaceAllString` with empty replacement for one anchored matcher
`m` (whose matches are never empty): scan left to right, delete each
leftmost match, continue after it.  The pending-deletion counter `k` keeps
the recursion structural: a match of length `n ≥ 1` deletes the current
character and the `n - 1` following ones. -/
def borrarCoincidencias (m : List Char → Option Nat) : List Char → Nat → List Char
  | [], _ => []
  | _ :: cs, k + 1 => borrarCoincidencias m cs k
  | c :: cs, 0 =>
    match m (c :: cs) with
    | some n => borrarCoincidencias m cs (n - 1)
    | none => c :: borrarCoincidencias m cs 0

/-- `limpiarXML` from converters/boleta_factura.go. -/
def limpiarXML (s : String) : String :=
  ⟨borrarCoincidencias matchAutocerrado
    (borrarCoincidencias matchAtributoVacio s.data 0) 0⟩

/-- Decidable substring occurrence (does `pat` occur contiguously in the
list?). -/
def contieneSeq (pat : List Char) : List Char → Bool
  | [] => pat.isEmpty
  | c :: cs => decide (List.take pat.length (c :: cs) = pat) || contieneSeq pat cs

/-! ## Signature slot check (signature/signature.go, `FirmaXML`)

`FirmaXML` re-parses the serialized document and fails fatally when
`doc.FindElements("//ext:ExtensionContent")` is empty.  On the structural
document, serialization emits exactly one `ext:ExtensionContent` element
per `UBLExtension` entry (the element is emitted even when its content is
empty; `limpiarXML` does not remove it because Go's encoder never writes
self-closing tags), so the check is modelled as non-emptiness of the
extension list. -/

def extensionContentNodes (inv : Invoice) : List ExtensionContent :=
  inv.ublExtensions.map (·.extensionContent)

/-- The slot-existence guard of `FirmaXML`: the fatal
`no se encontró <ext:ExtensionContent>` branch fires exactly when the
document carries no extension slot. -/
def firmaXMLSlotCheck (inv : Invoice) : Except String Unit :=
  if (extensionContentNodes inv).isEmpty then
    .error "no se encontro <ext:ExtensionContent>"
  else .ok ()

/-! ## Concrete example documents used by counterexamples and witnesses -/

def emisorEjemplo : Emisor :=
  { ruc := "20607599727", razonSocial := "ACME SAC", nombreComercial := ""
    ubigeo := "140101", direccion := "CALLE UNO 123", departamento := "LAMBAYEQUE"
    provincia := "LAMBAYEQUE", distrito := "LAMBAYEQUE", codigoPais := "PE", correo := "" }

def clienteEjemplo : Cliente :=
  { numeroDoc := "20123456789", razonSocial := "CLIENTE SA", tipoDoc := "6"
    ubigeo := "140101", direccion := "CALLE DOS 456", departamento := "LIMA"
    distrito := "LIMA", provincia := "LIMA", codigoPais := "PE", correo := "" }

/-- A taxed (code 10) item: quantity 1, unit value 100, IGV 18. -/
def itemGravado : ItemComprobante :=
  { id := "1", cantidad := 1, unidadMedida := "NIU", descripcion := "PRODUCTO A"
    valorUnitario := 100, precioVentaUnitario := 118, valorTotal := 100, igv := 18
    codigoProducto := "P001", codigoProductoSUNAT := "", codigoTipoPrecio := "01"
    tipoAfectacionIGV := "10", codigoTributo := "", unspsc := "" }

/-- A free-transfer (code 21) item carrying a non-zero IGV of 5. -/
def itemGratuitoConIGV : ItemComprobante :=
  { id := "2", cantidad := 1, unidadMedida := "NIU", descripcion := "PRODUCTO B"
    valorUnitario := 10, precioVentaUnitario := 0, valorTotal := 10, igv := 5
    codigoProducto := "P002", codigoProductoSUNAT := "", codigoTipoPrecio := "02"
    tipoAfectacionIGV := "21", codigoTributo := "", unspsc := "" }

/-- An exempt (code 20) item: quantity 1, unit value 100, IGV 0. -/
def itemExonerado : ItemComprobante :=
  { id := "3", cantidad := 1, unidadMedida := "NIU", descripcion := "PRODUCTO C"
    valorUnitario := 100, precioVentaUnitario := 100, valorTotal := 100, igv := 0
    codigoProducto := "P003", codigoProductoSUNAT := "", codigoTipoPrecio := "01"
    tipoAfectacionIGV := "20", codigoTributo := "", unspsc := "" }

/-- A valid single-item invoice (code 10, totals 100 / 18 / 118 / 118). -/
def docBase : ComprobanteBase :=
  { serie := "F001", numero := "1", fechaEmision := "2025-01-01"
    horaEmision := "10:00:00", fechaVencimiento := "", tipoDocumento := "01"
    moneda := "PEN", emisor := emisorEjemplo, cliente := clienteEjemplo
    totalGravado := 100, totalIGV := 18, totalPrecioVenta := 118
    totalImportePagar := 118, formaPago := "Contado", cuotas := []
    items := [itemGravado], leyendas := [], tipoPercepcion := "" }

/-- A valid invoice containing a taxed item and a free-transfer item whose
IGV field is 5: the validator skips code-21 items entirely, so this passes
validation. -/
def docGratuitoConIGV : ComprobanteBase :=
  { docBase with items := [itemGravado, itemGratuitoConIGV] }

/-- A valid invoice whose items span two distinct affectation codes (10 and
20), so the `subtotales` map of `crearTaxTotals` has two keys. -/
def docDosAfectaciones : ComprobanteBase :=
  { docBase with
    items := [itemGravado, itemExonerado]
    totalPrecioVenta := 218
    totalImportePagar := 218 }

/-- The invoice of the perception example: document type 01, perception
indicator 01, payable 100.00 PEN. -/
def docPercepcion : ComprobanteBase :=
  { docBase with
    totalImportePagar := 100
    tipoPercepcion := "01" }

/-- An invoice whose only defect is an unknown affectation code `"99"` on
its (single) item. -/
def docAfectacionDesconocida : ComprobanteBase :=
  { docBase with
    items := [{ itemGravado with tipoAfectacionIGV := "99" }] }

/-- An invoice whose item states quantity 1 × unit value 100 but a line
total of 150. -/
def docItemInconsistente : ComprobanteBase :=
  { docBase with
    items := [{ itemGravado with valorTotal := 150 }] }

/-! ## Theorems -/

/-- C4: code_bug evaluation.  For a line item with affectation code `"17"`
the emitted tax category (used identically on invoice lines and in tax
buckets) carries category id `S`, tax-scheme id `1000`, name `IGV` and type
`VAT` as the claim states, but its `Percent` is `0.00`, not the claimed
`18%`: the `percent` switch of `newTaxCategory` lists only `"10"…"16"`.
The program contradicts itself: the bucket loop of `crearTaxTotals`
(`porcentajeAfectacion`) computes 18 for `"17"`, and codes `"10"…"16"` do
get `Percent = 18` from `newTaxCategory`. -/
theorem c4_categoria_codigo17 :
    (newTaxCategory (itemConAfectacion "17")).id.value = "S" ∧
    (newTaxCategory (itemConAfectacion "17")).taxScheme.id.value = "1000" ∧
    (newTaxCategory (itemConAfectacion "17")).taxScheme.name = "IGV" ∧
    (newTaxCategory (itemConAfectacion "17")).taxScheme.taxTypeCode = "VAT" ∧
    (newTaxCategory (itemConAfectacion "17")).percent = 0 ∧
    porcentajeAfectacion "17" = 18 ∧
    (newTaxCategory (itemConAfectacion "10")).percent = 18 ∧
    (newTaxCategory (itemConAfectacion "11")).percent = 18 ∧
    (newTaxCategory (itemConAfectacion "12")).percent = 18 ∧
    (newTaxCategory (itemConAfectacion "13")).percent = 18 ∧
    (newTaxCategory (itemConAfectacion "14")).percent = 18 ∧
    (newTaxCategory (itemConAfectacion "15")).percent = 18 ∧
    (newTaxCategory (itemConAfectacion "16")).percent = 18 := by
  decide

/-- C6: code_bug evaluation.  `docDosAfectaciones` is a canonical document
that passes input validation and whose items span two distinct affectation
codes; `["10", "20"]` and `["20", "10"]` are both admissible iteration
orders of the `subtotales` map keys in `crearTaxTotals` (Go randomizes map
`range` order), and the two orders yield different built documents — the
`TaxSubtotal` children appear in different sequence — so repeated builds
from the identical input are not byte-identical. -/
theorem c6_orden_no_determinista :
    ValidarComprobanteBase docDosAfectaciones = .ok () ∧
    esOrdenDeClaves docDosAfectaciones.items ["10", "20"] ∧
    esOrdenDeClaves docDosAfectaciones.items ["20", "10"] ∧
    ConvertirFacturaAUBL docDosAfectaciones ["10", "20"] ≠
      ConvertirFacturaAUBL docDosAfectaciones ["20", "10"] := by
  decide

/-- C8: every artifact built by `ConvertirFacturaAUBL` carries, as its
first UBL extension, the empty extension slot reserved for the signature;
consequently the document always has an `ext:ExtensionContent` node and the
fatal slot-absent branch of `FirmaXML` cannot fire on builder output. -/
theorem c8_slot_de_firma (f : ComprobanteBase) (orden : List String) :
    (ConvertirFacturaAUBL f orden).ublExtensions.head? =
      some { extensionContent := { sunatPerception := none } } ∧
    firmaXMLSlotCheck (ConvertirFacturaAUBL f orden) = .ok () := by
  constructor
  · rfl
  · rfl

/-- C8 witness: the signer's slot check succeeds on a concrete built
document. -/
theorem c8_slot_de_firma_testigo :
    firmaXMLSlotCheck (ConvertirFacturaAUBL docBase []) = .ok () :=
  (c8_slot_de_firma docBase []).2

/-- C1: counterexample.  `docGratuitoConIGV` passes the full input
validation (its code-21 item is skipped by every totals check), yet in the
built artifact the line-extension amount (100) plus the document tax amount
(18 + 5 = 23, because `crearTaxTotals` sums the IGV of *all* buckets,
including the code-21 bucket) differs from the tax-inclusive amount (118)
by 5, far beyond the claimed 0.01 tolerance. -/
theorem c1_contraejemplo :
    ValidarComprobanteBase docGratuitoConIGV = .ok () ∧
    esOrdenDeClaves docGratuitoConIGV.items ["10", "21"] ∧
    ∀ t ∈ (ConvertirFacturaAUBL docGratuitoConIGV ["10", "21"]).taxTotal,
      ¬(absV ((ConvertirFacturaAUBL docGratuitoConIGV ["10", "21"]).legalMonetaryTotal.lineExtensionAmount.value
          + t.taxAmount.value
          - (ConvertirFacturaAUBL docGratuitoConIGV ["10", "21"]).legalMonetaryTotal.taxInclusiveAmount.value)
        ≤ 1/100) := by
  decide

/-- C2: counterexample.  The source compares response codes as raw strings
(`cdr.ResponseCode >= "4000" && cdr.ResponseCode < "5000"`), so the code
`"41"` — numerically 41, which the claim places under "any other code →
rejected" — is classified as observed. -/
theorem c2_contraejemplo :
    estadoDeCodigo "41" = "observada" ∧
    estadoSegunEspecificacion "41" = "rechazada" := by
  decide

/-- C9: counterexample.  The self-closing element `<cbc:ID schemeID="N"/>`
carries a non-empty attribute, so the claim says it is left unchanged; the
second pass of `limpiarXML` deletes it entirely.  Conversely
`<a b=""></a>`, an element whose sole content is an empty-valued attribute,
is claimed to be removed; `limpiarXML` only strips the attribute and keeps
the element. -/
theorem c9_contraejemplo :
    limpiarXML "<cbc:ID schemeID=\"N\"/>" = "" ∧
    limpiarXML "<a b=\"\"></a>" = "<a></a>" := by
  decide

/-- C3: a perception surcharge extension is produced if and only if the
document type is invoice (`"01"`) and the perception indicator is one of
`01`, `02`, `03`; the percent is 2 / 1 / 0.5 respectively; the surcharge
amount is `round(payable × percent/100)` and the adjusted net total
`round(payable + amount)`, where `round` (source `round`) is
round-half-away-from-zero at 2 decimal places (`mathRound (x*100)/100`); a
missing or unsupported indicator yields `none`, not an error. -/
theorem c3_percepcion (f : ComprobanteBase) :
    ((crearPercepcion f).isSome ↔
      f.tipoDocumento = "01" ∧
        (f.tipoPercepcion = "01" ∨ f.tipoPercepcion = "02" ∨ f.tipoPercepcion = "03")) ∧
    (∀ ext, crearPercepcion f = some ext →
      ∃ p, ext.extensionContent.sunatPerception = some p ∧
        p.systemCode = f.tipoPercepcion ∧
        p.percent =
          (if f.tipoPercepcion = "01" then 2
           else if f.tipoPercepcion = "02" then 1 else 1/2) ∧
        p.totalInvoiceAmount.value = f.totalImportePagar ∧
        p.perceptionAmount.value = roundDoc (f.totalImportePagar * (p.percent / 100)) ∧
        p.netTotalPaid.value = roundDoc (f.totalImportePagar + p.perceptionAmount.value)) := by
  by_cases h01 : f.tipoDocumento = "01"
  · by_cases hp1 : f.tipoPercepcion = "01"
    · refine ⟨by simp [crearPercepcion, h01, hp1], ?_⟩
      intro ext hext
      simp [crearPercepcion, h01, hp1, crearPercepcion.mkPercepcion] at hext
      subst hext
      exact ⟨_, rfl, by simp [hp1], by simp [hp1],
        by norm_num [newAmount], by norm_num [newAmount], by norm_num [newAmount]⟩
    · by_cases hp2 : f.tipoPercepcion = "02"
      · refine ⟨by simp [crearPercepcion, h01, hp1, hp2], ?_⟩
        intro ext hext
        simp [crearPercepcion, h01, hp1, hp2, crearPercepcion.mkPercepcion] at hext
        subst hext
        exact ⟨_, rfl, by simp [hp2], by simp [hp1, hp2],
          by norm_num [newAmount], by norm_num [newAmount], by norm_num [newAmount]⟩
      · by_cases hp3 : f.tipoPercepcion = "03"
        · refine ⟨by simp [crearPercepcion, h01, hp1, hp2, hp3], ?_⟩
          intro ext hext
          simp [crearPercepcion, h01, hp1, hp2, hp3, crearPercepcion.mkPercepcion] at hext
          subst hext
          exact ⟨_, rfl, by simp [hp3], by simp [hp1, hp2, hp3],
            by norm_num [newAmount], by norm_num [newAmount], by norm_num [newAmount]⟩
        · refine ⟨by simp [crearPercepcion, h01, hp1, hp2, hp3], ?_⟩
          intro ext hext
          simp [crearPercepcion, h01, hp1, hp2, hp3] at hext
  · refine ⟨by simp [crearPercepcion, h01], ?_⟩
    intro ext hext
    simp [crearPercepcion, h01] at hext

/-- C3 witness: document type `"01"`, indicator `"01"`, payable 100.00 ⇒
perception amount 2.00 and adjusted net total 102.00. -/
theorem c3_percepcion_testigo :
    ∃ ext, crearPercepcion docPercepcion = some ext ∧
      ∃ p, ext.extensionContent.sunatPerception = some p ∧
        p.perceptionAmount.value = 2 ∧ p.netTotalPaid.value = 102 := by
  obtain ⟨ext, hext⟩ : ∃ ext, crearPercepcion docPercepcion = some ext := ⟨_, rfl⟩
  obtain ⟨p, hp, hsys, hpct, htot, hamt, hnet⟩ := (c3_percepcion docPercepcion).2 ext hext
  refine ⟨ext, hext, p, hp, ?_, ?_⟩
  · rw [hamt, hpct]; decide
  · rw [hnet, hamt, hpct]; decide

theorem crearLineasDesde_length (l : List ItemComprobante) (m : String) :
    ∀ n, (crearLineasDesde l m n).length = l.length := by
  induction l with
  | nil => intro n; rfl
  | cons x xs ih => intro n; simp [crearLineasDesde, ih]

theorem crearLineasDesde_get_medio (l2 : List ItemComprobante) (it : ItemComprobante)
    (m : String) :
    ∀ (l1 : List ItemComprobante) (n : Nat)
      (hl : l1.length < (crearLineasDesde (l1 ++ it :: l2) m n).length),
      (crearLineasDesde (l1 ++ it :: l2) m n).get ⟨l1.length, hl⟩ =
        mkInvoiceLine it m (n + l1.length) := by
  intro l1
  induction l1 with
  | nil => intro n hl; simp [crearLineasDesde]
  | cons x xs ih =>
    intro n hl
    simp only [List.cons_append, crearLineasDesde, List.length_cons]
    rw [List.get_cons_succ]
    rw [ih (n + 1)]
    congr 1
    omega

theorem crearLineas_get_medio (l1 l2 : List ItemComprobante) (it : ItemComprobante)
    (m : String) (hl : l1.length < (crearLineas (l1 ++ it :: l2) m).length) :
    (crearLineas (l1 ++ it :: l2) m).get ⟨l1.length, hl⟩ = mkInvoiceLine it m l1.length := by
  have h := crearLineasDesde_get_medio l2 it m l1 0 (by simpa [crearLineas] using hl)
  simpa [crearLineas] using h

theorem lineExtensionSum_insertar (l1 l2 : List ItemComprobante) (it : ItemComprobante) :
    lineExtensionSum (l1 ++ it :: l2) =
      lineExtensionSum (l1 ++ l2) + contribucionLineExtension it := by
  simp [lineExtensionSum, List.map_append, List.sum_append]
  ring

/-- C5: a line item with affectation code 21 (free transfer) contributes 0
to the document line-extension total — inserting it anywhere in the item
list leaves `lineExtensionSum` unchanged, its per-item contribution in
`crearTotalesMonetarios` being 0 — and on its invoice line the
`cac:Price/cbc:PriceAmount` is forced to 0 while
`cac:PricingReference/cac:AlternativeConditionPrice/cbc:PriceAmount`
carries the original unit value. -/
theorem c5_linea_gratuita (l1 l2 : List ItemComprobante) (it : ItemComprobante)
    (moneda : String) (h21 : it.tipoAfectacionIGV = "21") :
    ∃ hl : l1.length < (crearLineas (l1 ++ it :: l2) moneda).length,
      ((crearLineas (l1 ++ it :: l2) moneda).get ⟨l1.length, hl⟩).price.priceAmount.value = 0 ∧
      ((crearLineas (l1 ++ it :: l2) moneda).get
          ⟨l1.length, hl⟩).pricingReference.alternativeConditionPrice.priceAmount.value =
        it.valorUnitario ∧
      contribucionLineExtension it = 0 ∧
      lineExtensionSum (l1 ++ it :: l2) = lineExtensionSum (l1 ++ l2) := by
  have hcontrib : contribucionLineExtension it = 0 := by
    simp [contribucionLineExtension, h21]
  have hl : l1.length < (crearLineas (l1 ++ it :: l2) moneda).length := by
    rw [crearLineas, crearLineasDesde_length]
    simp
  refine ⟨hl, ?_, ?_, hcontrib, ?_⟩
  · rw [crearLineas_get_medio]
    simp [mkInvoiceLine, h21, newAmount]
  · rw [crearLineas_get_medio]
    simp [mkInvoiceLine, h21, newAmount]
  · rw [lineExtensionSum_insertar, hcontrib, add_zero]

/-- C5 witness: in the two-item document `[itemGravado, itemGratuitoConIGV]`
the second line (the code-21 item, unit value 10) gets sale price 0,
reference price 10, and removing it leaves the line-extension sum
unchanged. -/
theorem c5_linea_gratuita_testigo :
    ∃ hl : 1 < (crearLineas [itemGravado, itemGratuitoConIGV] "PEN").length,
      ((crearLineas [itemGravado, itemGratuitoConIGV] "PEN").get
          ⟨1, hl⟩).price.priceAmount.value = 0 ∧
      ((crearLineas [itemGravado, itemGratuitoConIGV] "PEN").get
          ⟨1, hl⟩).pricingReference.alternativeConditionPrice.priceAmount.value = 10 ∧
      lineExtensionSum [itemGravado, itemGratuitoConIGV] = lineExtensionSum [itemGravado] := by
  obtain ⟨hl, h1, h2, h3, h4⟩ :=
    c5_linea_gratuita [itemGravado] [] itemGratuitoConIGV "PEN" (by decide)
  exact ⟨by simpa using hl, by simpa using h1, by simpa using h2, by simpa using h4⟩

theorem validarItem_ok_afectacion {it : ItemComprobante} {n : Nat}
    (h : validarItem it n = .ok ()) : it.tipoAfectacionIGV ∈ tiposAfectacionValidos := by
  unfold validarItem at h
  split_ifs at h with h1 h2 h3 h4 h5
  exact h4

theorem validarItem_error_afectacion {it : ItemComprobante} {n : Nat}
    (hdesc : it.descripcion ≠ "") (hq : ¬it.cantidad ≤ 0) (hvu : ¬it.valorUnitario < 0)
    (hbad : it.tipoAfectacionIGV ∉ tiposAfectacionValidos) :
    validarItem it n = .error (.itemAfectacionInvalida (n + 1) it.tipoAfectacionIGV) := by
  unfold validarItem
  rw [if_neg hdesc, if_neg hq, if_neg hvu, if_pos hbad]

theorem validarItem_error_inconsistente {it : ItemComprobante} {n : Nat}
    (hne : it.tipoAfectacionIGV ≠ "21")
    (habs : absV (it.valorTotal - it.valorUnitario * it.cantidad) > 1/100) :
    ∃ e, validarItem it n = .error e := by
  unfold validarItem
  by_cases h1 : it.descripcion = ""
  · exact ⟨_, by rw [if_pos h1]⟩
  rw [if_neg h1]
  by_cases h2 : it.cantidad ≤ 0
  · exact ⟨_, by rw [if_pos h2]⟩
  rw [if_neg h2]
  by_cases h3 : it.valorUnitario < 0
  · exact ⟨_, by rw [if_pos h3]⟩
  rw [if_neg h3]
  by_cases h4 : it.tipoAfectacionIGV ∉ tiposAfectacionValidos
  · exact ⟨_, by rw [if_pos h4]⟩
  rw [if_neg h4, if_pos ⟨hne, habs⟩]
  exact ⟨_, rfl⟩

theorem validarItem_ok_21 {it : ItemComprobante} {n : Nat}
    (h21 : it.tipoAfectacionIGV = "21") (hdesc : it.descripcion ≠ "")
    (hq : ¬it.cantidad ≤ 0) (hvu : ¬it.valorUnitario < 0) :
    validarItem it n = .ok () := by
  unfold validarItem
  rw [if_neg hdesc, if_neg hq, if_neg hvu, if_neg, if_neg]
  · intro hcon
    exact hcon.1 h21
  · intro hmem
    exact hmem (by rw [h21]; decide)

theorem validarItemsDesde_error_en (l : List ItemComprobante) :
    ∀ (n i : Nat) (h : i < l.length),
      (∃ e, validarItem (l.get ⟨i, h⟩) (n + i) = .error e) →
      ∃ e, validarItemsDesde l n = .error e := by
  induction l with
  | nil => intro n i h he; exact absurd h (by simp)
  | cons x xs ih =>
    intro n i h he
    obtain ⟨e, he⟩ := he
    cases hx : validarItem x n with
    | error e0 => exact ⟨e0, by rw [validarItemsDesde, hx]⟩
    | ok u =>
      cases u
      cases i with
      | zero =>
        rw [show (x :: xs).get ⟨0, h⟩ = x from rfl, Nat.add_zero, hx] at he
        cases he
      | succ j =>
        have hj : j < xs.length := by simp only [List.length_cons] at h; omega
        have he2 : validarItem (xs.get ⟨j, hj⟩) ((n + 1) + j) = .error e := by
          rw [show (n + 1) + j = n + (j + 1) from by omega]
          exact he
        obtain ⟨e3, he3⟩ := ih (n + 1) j hj ⟨e, he2⟩
        exact ⟨e3, by rw [validarItemsDesde, hx]; exact he3⟩

theorem validarItemsDesde_ok_todos (l : List ItemComprobante) :
    ∀ (n : Nat), validarItemsDesde l n = .ok () →
      ∀ (i : Nat) (h : i < l.length), validarItem (l.get ⟨i, h⟩) (n + i) = .ok () := by
  induction l with
  | nil => intro n hok i h; exact absurd h (by simp)
  | cons x xs ih =>
    intro n hok i h
    cases hx : validarItem x n with
    | error e0 => rw [validarItemsDesde, hx] at hok; cases hok
    | ok u =>
      cases u
      rw [validarItemsDesde, hx] at hok
      cases i with
      | zero => rw [show (x :: xs).get ⟨0, h⟩ = x from rfl, Nat.add_zero]; exact hx
      | succ j =>
        have hj : j < xs.length := by simp only [List.length_cons] at h; omega
        have := ih (n + 1) hok j hj
        rw [show n + (j + 1) = (n + 1) + j from by omega]
        exact this

theorem validarItemsDesde_primer_error (l : List ItemComprobante) :
    ∀ (n i : Nat) (h : i < l.length) (e : VError),
      (∀ (j : Nat) (hj : j < i), validarItem (l.get ⟨j, by omega⟩) (n + j) = .ok ()) →
      validarItem (l.get ⟨i, h⟩) (n + i) = .error e →
      validarItemsDesde l n = .error e := by
  induction l with
  | nil => intro n i h; exact absurd h (by simp)
  | cons x xs ih =>
    intro n i h e hprev hcur
    cases i with
    | zero =>
      rw [show (x :: xs).get ⟨0, h⟩ = x from rfl, Nat.add_zero] at hcur
      rw [validarItemsDesde, hcur]
    | succ j =>
      have hx : validarItem x n = .ok () := by
        have := hprev 0 (Nat.succ_pos j)
        rw [show (x :: xs).get ⟨0, by omega⟩ = x from rfl, Nat.add_zero] at this
        exact this
      rw [validarItemsDesde, hx]
      have hj : j < xs.length := by simp only [List.length_cons] at h; omega
      refine ih (n + 1) j hj e ?_ ?_
      · intro k hk
        have := hprev (k + 1) (by omega)
        rw [show n + (k + 1) = (n + 1) + k from by omega] at this
        exact this
      · rw [show (n + 1) + j = n + (j + 1) from by omega]
        exact hcur


theorem ValidarComprobanteBase_ok_partes {f : ComprobanteBase}
    (h : ValidarComprobanteBase f = .ok ()) :
    verificarCamposObligatorios f = .ok () ∧ validarEmisor f.emisor = .ok () ∧
      validarCliente f.cliente f.tipoDocumento = .ok () ∧
      validarCamposBasicos f = .ok () ∧ f.items.isEmpty = false ∧
      validarItemsDesde f.items 0 = .ok () ∧ validarTotales f = .ok () := by
  unfold ValidarComprobanteBase at h
  cases h1 : verificarCamposObligatorios f with
  | error e => rw [h1] at h; cases h
  | ok u1 =>
  cases u1
  rw [h1] at h
  cases h2 : validarEmisor f.emisor with
  | error e => rw [h2] at h; cases h
  | ok u2 =>
  cases u2
  rw [h2] at h
  cases h3 : validarCliente f.cliente f.tipoDocumento with
  | error e => rw [h3] at h; cases h
  | ok u3 =>
  cases u3
  rw [h3] at h
  cases h4 : validarCamposBasicos f with
  | error e => rw [h4] at h; cases h
  | ok u4 =>
  cases u4
  rw [h4] at h
  by_cases h5 : f.items.isEmpty
  · rw [if_pos h5] at h; cases h
  rw [if_neg h5] at h
  cases h6 : validarItemsDesde f.items 0 with
  | error e => rw [h6] at h; cases h
  | ok u6 =>
  cases u6
  rw [h6] at h
  exact ⟨rfl, rfl, rfl, rfl, by simpa using h5, rfl, h⟩

theorem ValidarComprobanteBase_error_de_item {f : ComprobanteBase} (i : Nat)
    (h : i < f.items.length)
    (he : ∃ e, validarItem (f.items.get ⟨i, h⟩) i = .error e) :
    ∃ e, ValidarComprobanteBase f = .error e := by
  unfold ValidarComprobanteBase
  cases h1 : verificarCamposObligatorios f with
  | error e => exact ⟨e, rfl⟩
  | ok u1 =>
  cases u1
  cases h2 : validarEmisor f.emisor with
  | error e => exact ⟨e, rfl⟩
  | ok u2 =>
  cases u2
  cases h3 : validarCliente f.cliente f.tipoDocumento with
  | error e => exact ⟨e, rfl⟩
  | ok u3 =>
  cases u3
  cases h4 : validarCamposBasicos f with
  | error e => exact ⟨e, rfl⟩
  | ok u4 =>
  cases u4
  have hne : f.items.isEmpty = false := by
    cases hl : f.items with
    | nil => rw [hl] at h; exact absurd h (by simp)
    | cons a as => rfl
  rw [if_neg (by simp [hne])]
  obtain ⟨e6, h6⟩ := validarItemsDesde_error_en f.items 0 i h
    (by simpa using he)
  rw [h6]
  exact ⟨e6, rfl⟩


theorem validarItem_error_afectacion_ex {it : ItemComprobante} {n : Nat}
    (hbad : it.tipoAfectacionIGV ∉ tiposAfectacionValidos) :
    ∃ e, validarItem it n = .error e := by
  unfold validarItem
  by_cases h1 : it.descripcion = ""
  · exact ⟨_, by rw [if_pos h1]⟩
  rw [if_neg h1]
  by_cases h2 : it.cantidad ≤ 0
  · exact ⟨_, by rw [if_pos h2]⟩
  rw [if_neg h2]
  by_cases h3 : it.valorUnitario < 0
  · exact ⟨_, by rw [if_pos h3]⟩
  rw [if_neg h3, if_pos hbad]
  exact ⟨_, rfl⟩

theorem procesar_error_de_validacion {f : ComprobanteBase} {orden : List String} {e : VError}
    (h : ValidarComprobanteBase f = .error e) : procesarDocumento f orden = .error e := by
  unfold procesarDocumento
  rw [h]

/-- C7: a submission containing a line item whose affectation code lies
outside the catalog {10–17, 20, 21, 30–37, 40} always fails validation, so
the pipeline errors before any document is built; and when the rest of the
input is well-formed (prior stages pass, earlier items pass, the offending
item has a description, positive quantity and non-negative unit value) the
error is precisely `itemAfectacionInvalida` naming the offending item's
1-based position and its code — never a silent default into the taxable
category. -/
theorem c7_codigo_desconocido (f : ComprobanteBase) (orden : List String) (i : Nat)
    (h : i < f.items.length)
    (hbad : (f.items.get ⟨i, h⟩).tipoAfectacionIGV ∉ tiposAfectacionValidos) :
    (∃ e, ValidarComprobanteBase f = .error e) ∧
    (∃ e, procesarDocumento f orden = .error e) ∧
    (verificarCamposObligatorios f = .ok () →
     validarEmisor f.emisor = .ok () →
     validarCliente f.cliente f.tipoDocumento = .ok () →
     validarCamposBasicos f = .ok () →
     (∀ (j : Nat) (hj : j < i), validarItem (f.items.get ⟨j, by omega⟩) j = .ok ()) →
     (f.items.get ⟨i, h⟩).descripcion ≠ "" →
     ¬(f.items.get ⟨i, h⟩).cantidad ≤ 0 →
     ¬(f.items.get ⟨i, h⟩).valorUnitario < 0 →
     procesarDocumento f orden =
       .error (.itemAfectacionInvalida (i + 1) (f.items.get ⟨i, h⟩).tipoAfectacionIGV)) := by
  have hval : ∃ e, ValidarComprobanteBase f = .error e :=
    ValidarComprobanteBase_error_de_item i h (validarItem_error_afectacion_ex hbad)
  refine ⟨hval, ?_, ?_⟩
  · obtain ⟨e, he⟩ := hval
    exact ⟨e, procesar_error_de_validacion he⟩
  · intro hcampos hemisor hcliente hbasicos hprev hdesc hq hvu
    have hitem : validarItem (f.items.get ⟨i, h⟩) (0 + i) =
        .error (.itemAfectacionInvalida (i + 1) (f.items.get ⟨i, h⟩).tipoAfectacionIGV) := by
      rw [Nat.zero_add]
      exact validarItem_error_afectacion hdesc hq hvu hbad
    have hloop := validarItemsDesde_primer_error f.items 0 i h _
      (fun j hj => by rw [Nat.zero_add]; exact hprev j hj) hitem
    have hne : f.items.isEmpty = false := by
      cases hl : f.items with
      | nil => rw [hl] at h; exact absurd h (by simp)
      | cons a as => rfl
    have hval2 : ValidarComprobanteBase f =
        .error (.itemAfectacionInvalida (i + 1) (f.items.get ⟨i, h⟩).tipoAfectacionIGV) := by
      unfold ValidarComprobanteBase
      rw [hcampos, hemisor, hcliente, hbasicos, if_neg (by simp [hne]), hloop]
    exact procesar_error_de_validacion hval2

/-- C7 witness: the document whose single item carries code `"99"` is
rejected by the pipeline with the classification error naming item 1 and
code `"99"`. -/
theorem c7_codigo_desconocido_testigo :
    procesarDocumento docAfectacionDesconocida [] =
      .error (.itemAfectacionInvalida 1 "99") := by
  have h := (c7_codigo_desconocido docAfectacionDesconocida [] 0 (by decide) (by decide)).2.2
  exact h (by decide) (by decide) (by decide) (by decide)
    (fun j hj => absurd hj (by omega)) (by decide) (by decide) (by decide)

/-- C10: for a line item whose affectation code differs from 21, input
validation fails whenever the item's line total differs from unit value ×
quantity by more than 0.01; items with code 21 are exempt from that
per-item consistency check (they validate regardless of their line total,
provided the generic description/quantity/unit-value checks pass). -/
theorem c10_consistencia_item (f : ComprobanteBase) (i : Nat) (h : i < f.items.length)
    (hne : (f.items.get ⟨i, h⟩).tipoAfectacionIGV ≠ "21")
    (habs : absV ((f.items.get ⟨i, h⟩).valorTotal -
      (f.items.get ⟨i, h⟩).valorUnitario * (f.items.get ⟨i, h⟩).cantidad) > 1/100) :
    (∃ e, ValidarComprobanteBase f = .error e) ∧
    (∀ (it : ItemComprobante) (n : Nat), it.tipoAfectacionIGV = "21" →
      it.descripcion ≠ "" → ¬it.cantidad ≤ 0 → ¬it.valorUnitario < 0 →
      validarItem it n = .ok ()) := by
  constructor
  · exact ValidarComprobanteBase_error_de_item i h (validarItem_error_inconsistente hne habs)
  · intro it n h21 hdesc hq hvu
    exact validarItem_ok_21 h21 hdesc hq hvu

/-- C10 witness: the document whose item claims quantity 1 × unit value 100
but line total 150 fails validation, while the code-21 item passes
`validarItem` (its line total is not checked against quantity × unit
value). -/
theorem c10_consistencia_item_testigo :
    (∃ e, ValidarComprobanteBase docItemInconsistente = .error e) ∧
    validarItem itemGratuitoConIGV 5 = .ok () := by
  have h := c10_consistencia_item docItemInconsistente 0 (by decide) (by decide) (by decide)
  exact ⟨h.1, h.2 itemGratuitoConIGV 5 (by decide) (by decide) (by decide) (by decide)⟩


theorem absV_le_iff (x y : ℚ) : absV x ≤ y ↔ -y ≤ x ∧ x ≤ y := by
  unfold absV
  split_ifs with h
  · constructor
    · intro hle; constructor <;> linarith
    · intro ⟨h1, h2⟩; linarith
  · constructor
    · intro hle; constructor <;> linarith
    · intro ⟨h1, h2⟩; linarith

theorem sum_map_suma {α : Type} (l : List α) (f g : α → ℚ) :
    (l.map (fun x => f x + g x)).sum = (l.map f).sum + (l.map g).sum := by
  induction l with
  | nil => simp
  | cons x xs ih => simp [ih]; ring

theorem contribucion_descomposicion (it : ItemComprobante)
    (h : it.tipoAfectacionIGV ∈ tiposAfectacionValidos) :
    contribucionLineExtension it =
      contribucionGravado it + contribucionExonerado it + contribucionInafecto it := by
  simp only [tiposAfectacionValidos, List.mem_cons, List.not_mem_nil, or_false] at h
  rcases h with h | h | h | h | h | h | h | h | h | h | h | h | h | h | h | h | h | h | h <;>
    simp [contribucionLineExtension, contribucionGravado, contribucionExonerado,
      contribucionInafecto, h]

theorem lineExtensionSum_descomposicion (items : List ItemComprobante)
    (h : ∀ it ∈ items, it.tipoAfectacionIGV ∈ tiposAfectacionValidos) :
    lineExtensionSum items =
      sumaGravadoDe items + sumaExoneradoDe items + sumaInafectoDe items := by
  unfold sumaGravadoDe sumaExoneradoDe sumaInafectoDe
  induction items with
  | nil => simp [lineExtensionSum]
  | cons x xs ih =>
    have hx := h x (List.mem_cons_self x xs)
    have hxs := ih (fun it hit => h it (List.mem_cons_of_mem x hit))
    simp only [lineExtensionSum, List.map_cons, List.sum_cons] at hxs ⊢
    rw [contribucion_descomposicion x hx, hxs]
    ring

theorem contribucionIGV_eq_igv (it : ItemComprobante)
    (h21 : it.tipoAfectacionIGV = "21" → it.igv = 0) :
    contribucionIGV it = it.igv := by
  unfold contribucionIGV
  split_ifs with h
  · exact (h21 h).symm
  · rfl

theorem subtotalIGV_cons (it : ItemComprobante) (rest : List ItemComprobante) (c : String) :
    subtotalIGV (it :: rest) c =
      (if it.tipoAfectacionIGV = c then it.igv else 0) + subtotalIGV rest c := by
  by_cases h : it.tipoAfectacionIGV = c
  · simp [subtotalIGV, List.filter_cons, h]
  · simp [subtotalIGV, List.filter_cons, h]

theorem suma_delta_cero (x : ℚ) (a : String) :
    ∀ (l : List String), a ∉ l → (l.map (fun c => if a = c then x else 0)).sum = 0 := by
  intro l
  induction l with
  | nil => intro _; simp
  | cons c cs ih =>
    intro hna
    simp only [List.map_cons, List.sum_cons]
    rw [if_neg (by intro heq; subst heq; exact hna (List.mem_cons_self a cs)), zero_add]
    exact ih (fun hm => hna (List.mem_cons_of_mem c hm))

theorem suma_delta (x : ℚ) (a : String) :
    ∀ (orden : List String), orden.Nodup → a ∈ orden →
      (orden.map (fun c => if a = c then x else 0)).sum = x := by
  intro orden
  induction orden with
  | nil => intro _ h; cases h
  | cons c cs ih =>
    intro hnd hmem
    simp only [List.map_cons, List.sum_cons]
    by_cases hac : a = c
    · subst hac
      rw [if_pos rfl, suma_delta_cero x a cs (List.nodup_cons.mp hnd).1, add_zero]
    · rw [if_neg hac, zero_add]
      exact ih (List.nodup_cons.mp hnd).2 ((List.mem_cons.mp hmem).resolve_left hac)

theorem totalIGV_particion (items : List ItemComprobante) :
    ∀ (orden : List String), orden.Nodup →
      (∀ it ∈ items, it.tipoAfectacionIGV ∈ orden) →
      (orden.map (fun tipo => subtotalIGV items tipo)).sum = (items.map (·.igv)).sum := by
  induction items with
  | nil =>
    intro orden hnd hmem
    simp [subtotalIGV]
  | cons x xs ih =>
    intro orden hnd hmem
    have hx : x.tipoAfectacionIGV ∈ orden := hmem x (List.mem_cons_self x xs)
    have hxs : ∀ it ∈ xs, it.tipoAfectacionIGV ∈ orden :=
      fun it hit => hmem it (List.mem_cons_of_mem x hit)
    have hmapa : (orden.map (fun tipo => subtotalIGV (x :: xs) tipo)) =
        orden.map (fun tipo =>
          (if x.tipoAfectacionIGV = tipo then x.igv else 0) + subtotalIGV xs tipo) :=
      List.map_congr_left (fun c hc => subtotalIGV_cons x xs c)
    rw [hmapa, sum_map_suma, suma_delta x.igv x.tipoAfectacionIGV orden hnd hx, ih orden hnd hxs]
    simp

theorem validarTotales_ok_precio {f : ComprobanteBase}
    (h : validarTotales f = .ok ()) :
    absV (f.totalPrecioVenta - totalEsperadoDe f.items) ≤ 1/100 := by
  unfold validarTotales at h
  split_ifs at h with h1 h2 h3 h4
  exact not_lt.mp h3


/-- C1 (amended): for every canonical document that passes input validation
and in which every free-transfer (code-21) item carries a zero IGV amount,
the built artifact satisfies: LegalMonetaryTotal LineExtensionAmount plus
the document TaxTotal TaxAmount equals TaxInclusiveAmount within 0.01
absolute tolerance.  (The zero-IGV proviso is forced by the counterexample:
validation skips code-21 items entirely while `crearTaxTotals` sums the IGV
of every bucket including the code-21 one.) -/
theorem c1_invariante_totales (f : ComprobanteBase) (orden : List String)
    (hval : ValidarComprobanteBase f = .ok ())
    (horden : esOrdenDeClaves f.items orden)
    (h21 : ∀ it ∈ f.items, it.tipoAfectacionIGV = "21" → it.igv = 0) :
    ∃ t, (ConvertirFacturaAUBL f orden).taxTotal = [t] ∧
      absV ((ConvertirFacturaAUBL f orden).legalMonetaryTotal.lineExtensionAmount.value
          + t.taxAmount.value
          - (ConvertirFacturaAUBL f orden).legalMonetaryTotal.taxInclusiveAmount.value)
        ≤ 1/100 := by
  obtain ⟨hc, he, hcl, hb, hne, hitems, htot⟩ := ValidarComprobanteBase_ok_partes hval
  have hvalid : ∀ it ∈ f.items, it.tipoAfectacionIGV ∈ tiposAfectacionValidos := by
    intro it hit
    obtain ⟨i, hi, heq⟩ := List.mem_iff_getElem.mp hit
    have hok := validarItemsDesde_ok_todos f.items 0 hitems i hi
    rw [Nat.zero_add] at hok
    have hgg : f.items.get ⟨i, hi⟩ = it := heq
    rw [hgg] at hok
    exact validarItem_ok_afectacion hok
  have hmem : ∀ it ∈ f.items, it.tipoAfectacionIGV ∈ orden := by
    intro it hit
    exact horden.2.2 _ (List.mem_map_of_mem _ hit)
  refine ⟨_, rfl, ?_⟩
  show absV (lineExtensionSum f.items +
      (orden.map (fun tipo => subtotalIGV f.items tipo)).sum - f.totalPrecioVenta) ≤ 1/100
  rw [totalIGV_particion f.items orden horden.1 hmem]
  rw [lineExtensionSum_descomposicion f.items hvalid]
  have higv : (f.items.map (·.igv)).sum = sumaIGVDe f.items := by
    unfold sumaIGVDe
    congr 1
    exact List.map_congr_left (fun it hit => (contribucionIGV_eq_igv it (h21 it hit)).symm)
  rw [higv]
  have hb2 := (absV_le_iff _ _).mp (validarTotales_ok_precio htot)
  unfold totalEsperadoDe at hb2
  apply (absV_le_iff _ _).mpr
  constructor <;> linarith

/-- C1 witness: the valid single-item document (base 100, IGV 18,
tax-inclusive 118) satisfies the invariant exactly. -/
theorem c1_invariante_totales_testigo :
    ∃ t, (ConvertirFacturaAUBL docBase ["10"]).taxTotal = [t] ∧
      absV ((ConvertirFacturaAUBL docBase ["10"]).legalMonetaryTotal.lineExtensionAmount.value
          + t.taxAmount.value
          - (ConvertirFacturaAUBL docBase ["10"]).legalMonetaryTotal.taxInclusiveAmount.value)
        ≤ 1/100 :=
  c1_invariante_totales docBase ["10"] (by decide) (by decide) (by decide)


theorem isDigit_toNat {c : Char} (h : 48 ≤ c.toNat ∧ c.toNat ≤ 57) : c.isDigit = true := by
  simp only [Char.isDigit, Bool.and_eq_true, decide_eq_true_eq]
  exact ⟨h.1, h.2⟩

theorem lt4000_eq (a b c d : Char)
    (hb : 48 ≤ b.toNat ∧ b.toNat ≤ 57) (hc : 48 ≤ c.toNat ∧ c.toNat ≤ 57)
    (hd : 48 ≤ d.toNat ∧ d.toNat ≤ 57) :
    goStringLt [a, b, c, d] ("4000".data) = decide (a.toNat < 52) := by
  obtain ⟨hb1, hb2⟩ := hb
  obtain ⟨hc1, hc2⟩ := hc
  obtain ⟨hd1, hd2⟩ := hd
  rw [show "4000".data = ['4', '0', '0', '0'] from rfl]
  simp only [goStringLt, show ('4' : Char).toNat = 52 from rfl,
    show ('0' : Char).toNat = 48 from rfl]
  split_ifs <;> simp_all <;> omega

theorem lt5000_eq (a b c d : Char)
    (hb : 48 ≤ b.toNat ∧ b.toNat ≤ 57) (hc : 48 ≤ c.toNat ∧ c.toNat ≤ 57)
    (hd : 48 ≤ d.toNat ∧ d.toNat ≤ 57) :
    goStringLt [a, b, c, d] ("5000".data) = decide (a.toNat < 53) := by
  obtain ⟨hb1, hb2⟩ := hb
  obtain ⟨hc1, hc2⟩ := hc
  obtain ⟨hd1, hd2⟩ := hd
  rw [show "5000".data = ['5', '0', '0', '0'] from rfl]
  simp only [goStringLt, show ('5' : Char).toNat = 53 from rfl,
    show ('0' : Char).toNat = 48 from rfl]
  split_ifs <;> simp_all <;> omega


theorem estado_cuatro_digitos (a b c d : Char)
    (ha : 48 ≤ a.toNat ∧ a.toNat ≤ 57) (hb : 48 ≤ b.toNat ∧ b.toNat ≤ 57)
    (hc : 48 ≤ c.toNat ∧ c.toNat ≤ 57) (hd : 48 ≤ d.toNat ∧ d.toNat ≤ 57) :
    estadoDeCodigo ⟨[a, b, c, d]⟩ = estadoSegunEspecificacion ⟨[a, b, c, d]⟩ := by
  have hne : (⟨[a, b, c, d]⟩ : String) ≠ "0" := by
    intro h
    have hlen := congrArg (fun s => s.data.length) h
    simp at hlen
  have hall : [a, b, c, d].all Char.isDigit = true := by
    simp [List.all_cons, isDigit_toNat ha, isDigit_toNat hb, isDigit_toNat hc, isDigit_toNat hd]
  have hnat : natDeDigitos [a, b, c, d] =
      1000 * (a.toNat - 48) + 100 * (b.toNat - 48) + 10 * (c.toNat - 48) + (d.toNat - 48) := by
    simp [natDeDigitos, List.foldl]
    omega
  unfold estadoDeCodigo estadoSegunEspecificacion
  rw [if_neg hne, if_neg hne]
  rw [show (⟨[a, b, c, d]⟩ : String).data = [a, b, c, d] from rfl]
  rw [lt4000_eq a b c d hb hc hd, lt5000_eq a b c d hb hc hd, hnat, hall]
  obtain ⟨ha1, ha2⟩ := ha
  obtain ⟨hb1, hb2⟩ := hb
  obtain ⟨hc1, hc2⟩ := hc
  obtain ⟨hd1, hd2⟩ := hd
  split_ifs with h1 h2 h3
  · rfl
  · exfalso
    simp only [Bool.and_eq_true, Bool.not_eq_true', decide_eq_true_eq,
      decide_eq_false_iff_not, not_lt] at h1
    exact h2 ⟨by simp, by simp, by omega, by omega⟩
  · exfalso
    simp only [Bool.and_eq_true, Bool.not_eq_true', decide_eq_true_eq,
      decide_eq_false_iff_not, not_lt, not_and, not_le] at h1
    obtain ⟨-, -, hge, hlt⟩ := h3
    omega
  · rfl


/-- C2 (amended): the receipt status is derived by raw string comparison —
approved when the code equals `"0"`, observed when `"4000" ≤ code <
"5000"` in byte-wise lexicographic order, rejected otherwise.  For
four-character ASCII-digit codes (48 ≤ byte ≤ 57 for each position) this
coincides with the claimed numeric band [4000, 5000): the implementation
equals the numeric specification there; `"0"` is approved, `"4001"`
observed, `"2335"` rejected. -/
theorem c2_estado :
    (∀ a b c d : Char,
      48 ≤ a.toNat ∧ a.toNat ≤ 57 → 48 ≤ b.toNat ∧ b.toNat ≤ 57 →
      48 ≤ c.toNat ∧ c.toNat ≤ 57 → 48 ≤ d.toNat ∧ d.toNat ≤ 57 →
      estadoDeCodigo ⟨[a, b, c, d]⟩ = estadoSegunEspecificacion ⟨[a, b, c, d]⟩) ∧
    estadoDeCodigo "0" = "aprobada" ∧
    estadoDeCodigo "4001" = "observada" ∧
    estadoDeCodigo "2335" = "rechazada" :=
  ⟨fun a b c d ha hb hc hd => estado_cuatro_digitos a b c d ha hb hc hd,
    by decide, by decide, by decide⟩

/-- C2 witness: at the four-digit code `4001` the string-comparison status
agrees with the numeric specification, and both observe the document. -/
theorem c2_estado_testigo :
    estadoDeCodigo ⟨['4', '0', '0', '1']⟩ = estadoSegunEspecificacion ⟨['4', '0', '0', '1']⟩ ∧
    estadoDeCodigo ⟨['4', '0', '0', '1']⟩ = "observada" :=
  ⟨c2_estado.1 '4' '0' '0' '1' (by decide) (by decide) (by decide) (by decide), by decide⟩

theorem contiene_de_drop_take (pat : List Char) :
    ∀ (l : List Char) (k : Nat), (l.drop k).take pat.length = pat →
      contieneSeq pat l = true := by
  intro l
  induction l with
  | nil =>
    intro k h
    simp only [List.drop_nil, List.take_nil] at h
    simp [contieneSeq, ← h]
  | cons c cs ih =>
    intro k h
    cases k with
    | zero =>
      simp only [List.drop_zero] at h
      simp [contieneSeq, h]
    | succ j =>
      simp only [List.drop_succ_cons] at h
      have := ih j h
      simp [contieneSeq, this]

theorem contieneSeq_cola {pat : List Char} {c : Char} {cs : List Char}
    (h : contieneSeq pat (c :: cs) = false) : contieneSeq pat cs = false := by
  simp only [contieneSeq, Bool.or_eq_false_iff] at h
  exact h.2

theorem matchAtributoVacio_contiene (l : List Char) (n : Nat)
    (h : matchAtributoVacio l = some n) : contieneSeq ['=', '"', '"'] l = true := by
  simp only [matchAtributoVacio] at h
  split_ifs at h with hw ha
  split at h
  next l3 heq =>
    split_ifs at h with hb htake
    rw [List.drop_drop] at heq
    have hdrop : l.drop
        ((longMientras esEspacioRegex l +
          longMientras esPalabraRegex (l.drop (longMientras esEspacioRegex l))) +
          (longMientras esPalabraRegex l3 + 1)) =
        l3.drop (longMientras esPalabraRegex l3) := by
      rw [← List.drop_drop, heq, List.drop_succ_cons]
    apply contiene_de_drop_take ['=', '"', '"'] l
      ((longMientras esEspacioRegex l +
        longMientras esPalabraRegex (l.drop (longMientras esEspacioRegex l))) +
        (longMientras esPalabraRegex l3 + 1))
    rw [hdrop]
    exact htake
  next x hno =>
    split_ifs at h with htake
    rw [List.drop_drop] at htake
    exact contiene_de_drop_take ['=', '"', '"'] l
      (longMientras esEspacioRegex l +
        longMientras esPalabraRegex (l.drop (longMientras esEspacioRegex l))) htake

theorem buscarCierre_contiene :
    ∀ (l : List Char) (n : Nat), buscarCierre l = some n →
      contieneSeq ['/', '>'] l = true := by
  intro l
  induction l with
  | nil => intro n h; cases h
  | cons c cs ih =>
    intro n h
    simp only [buscarCierre] at h
    split_ifs at h with h1 h2
    · obtain ⟨hc, hh⟩ := h2
      cases cs with
      | nil => cases hh
      | cons d ds =>
        simp only [List.head?] at hh
        have hd : d = '>' := by injection hh
        subst hc
        subst hd
        simp [contieneSeq]
    · cases hb : buscarCierre cs with
      | none => rw [hb] at h; cases h
      | some m =>
        have := ih m hb
        simp [contieneSeq, this]

theorem matchAutocerrado_contiene (l : List Char) (n : Nat)
    (h : matchAutocerrado l = some n) : contieneSeq ['/', '>'] l = true := by
  match l with
  | [] => cases h
  | [a] => cases h
  | a :: c :: rest =>
    simp only [matchAutocerrado] at h
    split_ifs at h with h1
    cases hb : buscarCierre rest with
    | none => rw [hb] at h; cases h
    | some m =>
      have hrest := buscarCierre_contiene rest m hb
      simp [contieneSeq, hrest]

theorem borrar_sin_coincidencias (m : List Char → Option Nat) (pat : List Char)
    (hm : ∀ (l : List Char) (n : Nat), m l = some n → contieneSeq pat l = true) :
    ∀ (l : List Char), contieneSeq pat l = false → borrarCoincidencias m l 0 = l := by
  intro l
  induction l with
  | nil => intro _; rfl
  | cons c cs ih =>
    intro h
    have hnone : m (c :: cs) = none := by
      cases hmm : m (c :: cs) with
      | none => rfl
      | some n => rw [hm _ _ hmm] at h; cases h
    simp only [borrarCoincidencias, hnone]
    rw [ih (contieneSeq_cola h)]

/-- C9 (amended): the normalization step strips every whitespace-preceded
empty-valued attribute wherever it occurs — also from elements that keep
non-empty content — and deletes every self-closing element entirely, even
one carrying a non-empty attribute; a string containing neither the text
`=""` nor the text `/>` is left unchanged. -/
theorem c9_normalizacion :
    (∀ s : String, contieneSeq ['=', '"', '"'] s.data = false →
      contieneSeq ['/', '>'] s.data = false → limpiarXML s = s) ∧
    limpiarXML "<a b=\"\" c=\"d\">t</a>" = "<a c=\"d\">t</a>" ∧
    limpiarXML "<a b=\"x\"/>" = "" := by
  refine ⟨?_, by decide, by decide⟩
  intro s h1 h2
  unfold limpiarXML
  rw [borrar_sin_coincidencias matchAtributoVacio ['=', '"', '"']
    matchAtributoVacio_contiene s.data h1]
  rw [borrar_sin_coincidencias matchAutocerrado ['/', '>']
    matchAutocerrado_contiene s.data h2]


/-- C9 witness: an element with non-empty content and no empty attribute
passes through `limpiarXML` unchanged. -/
theorem c9_normalizacion_testigo :
    limpiarXML "<cbc:ID>7</cbc:ID>" = "<cbc:ID>7</cbc:ID>" :=
  c9_normalizacion.1 "<cbc:ID>7</cbc:ID>" (by decide) (by decide)

end SunatUbl
